import Mathlib

/-!
# The factory layer of the speech C API (speechapi_c_factory.cpp)

A shallow embedding of the creation operations, of the configuration cascade
`create_from_config`, and of the join / leave operations of the conversation
transcriber.  Every API entry point is a function from the state before the
call to an outcome and the state after it.  The state holds the object heap,
the handle tables, the caller's memory (for the output pointers) and a trace
of the collaborator calls the entry point made.
-/

namespace SpeechFactory

/-! ## Handles, status codes -/

/-- Handle values are pointer-sized integers. -/
abbrev SPXHANDLE := Nat

/-- Identity of an object on the heap (what a shared pointer points to). -/
abbrev ObjId := Nat

/-- An address in the caller's memory, the target of an output pointer. -/
abbrev Loc := Nat

/-- The null pointer, which the join and leave operations compare handles with. -/
def nullptr : SPXHANDLE := 0

/-- Failure codes.  The code carried by `other` is whatever a collaborator throws. -/
inductive Failure where
  | invalid_arg
  | runtime_error
  | invalid_argument_exception
  | other (code : Nat)
  deriving DecidableEq

/-- Status returned over the C boundary. -/
inductive SPXHR where
  | SPX_NOERROR
  | failed (f : Failure)
  deriving DecidableEq

/-- The status SPXERR_INVALID_ARG. -/
def SPXERR_INVALID_ARG : SPXHR := .failed .invalid_arg

/-- The status SPXERR_RUNTIME_ERROR. -/
def SPXERR_RUNTIME_ERROR : SPXHR := .failed .runtime_error

/-- The invalid-argument class of statuses: SPXERR_INVALID_ARG itself and the
status the boundary reports for an exception raised by
ThrowInvalidArgumentException. -/
def SPXHR.isInvalidArgumentClass : SPXHR → Bool
  | .failed .invalid_arg => true
  | .failed .invalid_argument_exception => true
  | _ => false

/-! ## Property bags -/

/-- Modelled from the spec: the Property Bag (ISpxNamedProperties, declared
outside this file) is a mapping from string keys to string values with unique
keys; it is represented by its lookup function. -/
abbrev Bag := String → Option String

/-- The bag without any key. -/
def Bag.empty : Bag := fun _ => none

/-- Modelled from the spec: HasStringValue tells whether the bag defines the key. -/
def Bag.HasStringValue (b : Bag) (name : String) : Bool := (b name).isSome

/-- Modelled from the spec: GetStringValue returns the value of the key, or the
default when the bag does not define it. -/
def Bag.GetStringValue (b : Bag) (name : String) (dflt : String) : String :=
  (b name).getD dflt

/-- Modelled from the spec: SetStringValue defines the key, overwriting. -/
def Bag.SetStringValue (b : Bag) (name : String) (value : String) : Bag :=
  fun k => if k = name then some value else b k

/-- Modelled from the spec: copy-merge overwrites on key collision, the source
bag's keys win for duplicates, and the keys of the destination that the source
does not list are preserved. -/
def Bag.Copy (dst src : Bag) : Bag :=
  fun k => match src k with
    | some v => some v
    | none => dst k

/-! ## Objects and their capabilities -/

/-- A shared object: a record of the optional capabilities this file queries.
A field that is `none` is a capability the object does not expose. -/
structure Obj where
  /-- The view ISpxNamedProperties: the property bag of the object. -/
  namedProperties : Option Bag := none
  /-- The view ISpxObjectWithSite: the current site (possibly none). -/
  objectWithSite : Option (Option ObjId) := none
  /-- The view ISpxGetAudioConfig: the audio configuration (possibly none). -/
  getAudioConfig : Option (Option ObjId) := none
  /-- The view ISpxConversationTranscriber: the conversation joined (possibly none). -/
  conversationTranscriber : Option (Option ObjId) := none
  /-- The view ISpxGenericSite: whether the object can serve as a site. -/
  genericSite : Bool := false
  /-- The service ISpxSpeechApiFactory reachable from the object. -/
  factoryService : Option ObjId := none
  /-- The service ISpxSession reachable from the object. -/
  sessionService : Option ObjId := none
  /-- For a session: the set of active recognizers. -/
  recognizers : List ObjId := []
  /-- For a session: the audio configurations it was initialised from. -/
  sessionAudio : List (Option ObjId) := []

/-- The roles of the handle tables this file uses: one table per interface. -/
inductive TableKind where
  | speechConfig
  | audioConfig
  | autoDetectSourceLangConfig
  | sourceLangConfig
  | recognizer
  | dialogServiceConnector
  | synthesizer
  | conversation
  deriving DecidableEq

/-- The creation methods of the two factory interfaces.  The conversation
method takes the conversation id where the others take the audio configuration. -/
inductive FactoryMethod where
  | CreateSpeechRecognizerFromConfig
  | CreateDialogServiceConnectorFromConfig
  | CreateTranslationRecognizerFromConfig
  | CreateIntentRecognizerFromConfig
  | CreateSpeechSynthesizerFromConfig
  | CreateConversationFromConfig (id : String)
  deriving DecidableEq

/-- The collaborator calls an entry point makes, in the order it makes them. -/
inductive Event where
  /-- A handle was looked up in a table (operator[] or GetPtr), with the result. -/
  | resolve (k : TableKind) (h : SPXHANDLE) (found : Option ObjId)
  /-- An object was requested from the resource manager by class name. -/
  | createObject (className : String) (created : Bool)
  /-- Copy was called on a destination bag with this source pointer. -/
  | copy (src : Option Bag)
  /-- A factory method was invoked on a factory holding this bag. -/
  | factoryMethod (fm : FactoryMethod) (bag : Bag) (audio : Option ObjId)
  /-- Init was called on a new conversation transcriber. -/
  | transcriberInit (audio : Option ObjId)
  /-- TrackHandle registered the object in a table and returned the handle. -/
  | track (k : TableKind) (o : ObjId) (h : SPXHANDLE)

/-- Whether the event is a handle lookup in the given table. -/
def Event.isResolveIn (k : TableKind) : Event → Bool
  | .resolve k1 _ _ => decide (k1 = k)
  | _ => false

/-- Whether the event is a call of Copy. -/
def Event.isCopy : Event → Bool
  | .copy _ => true
  | _ => false

/-- A handle table: the handles tracked, each with the object it stands for. -/
abbrev Table := List (SPXHANDLE × ObjId)

/-- The state of the process as far as this file sees it. -/
structure State where
  /-- The objects. -/
  heap : ObjId → Obj
  /-- The next unused object identity. -/
  nextObj : ObjId
  /-- One handle table per role. -/
  tables : TableKind → Table
  /-- The memory of the caller, where the output pointers point. -/
  mem : Loc → SPXHANDLE
  /-- The collaborator calls made so far. -/
  trace : List Event

/-- What an unwinding of the try block carries: a thrown status, or the
dereference of a null shared pointer (undefined behaviour in the source). -/
inductive Abort where
  | thrown (f : Failure)
  | null_dereference
  deriving DecidableEq

/-- What the caller observes of a call. -/
inductive Outcome where
  | returned (hr : SPXHR)
  | undefined_behaviour
  deriving DecidableEq

/-- The constants and collaborators declared outside this file. -/
structure Env where
  /-- The reserved handle value SPXHANDLE_INVALID. -/
  SPXHANDLE_INVALID : SPXHANDLE
  /-- The name GetPropertyName gives PropertyId::SpeechServiceConnection_EndpointId. -/
  endpointIdName : String
  /-- The property name KeywordConfig_EnableKeywordVerification. -/
  keywordVerificationName : String
  /-- Whether the resource manager can create the named factory class. -/
  canCreate : String → Bool
  /-- The status operator[] of a handle table throws for a handle it does not hold. -/
  lookupFailure : Failure
  /-- What Copy does when it is handed a null source: nothing, or an unwinding. -/
  copyNull : Option Abort
  /-- The factory methods: from the bag the factory holds and the audio
  configuration object (if any) to the new object, or a thrown status. -/
  construct : FactoryMethod → Bag → Option Obj → Except Failure Obj
  /-- The object SpxCreateObject gives for the class CSpxConversationTranscriber. -/
  newTranscriber : Option Obj
  /-- The method Init of a conversation transcriber. -/
  transcriberInit : Obj → Option ObjId → Except Failure Obj

/-! ## The state-and-exception monad of the try blocks -/

/-- A computation inside a try block: it ends with a value or unwinds, and the
state changes made before the unwinding stay. -/
def M (α : Type) : Type := State → Except Abort α × State

/-- Sequencing: an unwinding skips the rest. -/
def M.bind {α β : Type} (x : M α) (f : α → M β) : M β := fun s =>
  match x s with
  | (.ok a, s1) => f a s1
  | (.error e, s1) => (.error e, s1)

instance : Monad M where
  pure a := fun s => (.ok a, s)
  bind := M.bind

/-- Throw a status (SPX_IFTRUE_THROW_HR and the throwing collaborators). -/
def throwHR {α : Type} (f : Failure) : M α := fun s => (.error (.thrown f), s)

/-- The macro SPX_IFTRUE_THROW_HR. -/
def SPX_IFTRUE_THROW_HR (cond : Bool) (f : Failure) : M Unit :=
  if cond then throwHR f else pure ()

/-- Dereference a shared pointer: undefined behaviour when it is null. -/
def deref {α : Type} : Option α → M α
  | some a => pure a
  | none => fun s => (.error .null_dereference, s)

/-- Record a collaborator call. -/
def emit (e : Event) : M Unit := fun s => (.ok (), { s with trace := s.trace ++ [e] })

/-- Write through an output pointer. -/
def store (p : Loc) (h : SPXHANDLE) : M Unit := fun s =>
  (.ok (), { s with mem := Function.update s.mem p h })

/-! ## Handle tables -/

/-- Modelled from the spec: the handle table (CSpxSharedPtrHandleTableManager,
declared outside this file) maps the handles of one role to objects.  The null
pointer and the reserved invalid value are never tracked. -/
def Table.find (env : Env) (t : Table) (h : SPXHANDLE) : Option ObjId :=
  if h = nullptr ∨ h = env.SPXHANDLE_INVALID then none else t.lookup h

/-- Modelled from the spec: is_valid is total; it is false for the reserved
invalid value and for unknown handles. -/
def is_handle_valid (env : Env) (s : State) (k : TableKind) (h : SPXHANDLE) : Bool :=
  (Table.find env (s.tables k) h).isSome

/-- The check speech_config_is_handle_valid. -/
def speech_config_is_handle_valid (env : Env) (s : State) (h : SPXHANDLE) : Bool :=
  is_handle_valid env s .speechConfig h

/-- The check audio_config_is_handle_valid. -/
def audio_config_is_handle_valid (env : Env) (s : State) (h : SPXHANDLE) : Bool :=
  is_handle_valid env s .audioConfig h

/-- The check auto_detect_source_lang_config_is_handle_valid. -/
def auto_detect_source_lang_config_is_handle_valid (env : Env) (s : State) (h : SPXHANDLE) : Bool :=
  is_handle_valid env s .autoDetectSourceLangConfig h

/-- The check source_lang_config_is_handle_valid. -/
def source_lang_config_is_handle_valid (env : Env) (s : State) (h : SPXHANDLE) : Bool :=
  is_handle_valid env s .sourceLangConfig h

/-- Modelled from the spec: resolve (operator[] and GetPtr of the handle table)
gives the object of a tracked handle and does not remove the entry; for a
handle the table does not hold it throws the table's lookup failure. -/
def resolve (env : Env) (k : TableKind) (h : SPXHANDLE) : M ObjId := fun s =>
  let found := Table.find env (s.tables k) h
  let s1 := { s with trace := s.trace ++ [.resolve k h found] }
  match found with
  | some o => (.ok o, s1)
  | none => (.error (.thrown env.lookupFailure), s1)

/-- A handle value that the table does not hold and that is neither null nor
the reserved invalid value. -/
def freshHandle (env : Env) (t : Table) : SPXHANDLE :=
  let c := (t.map Prod.fst).foldl max 0 + 1
  if c = env.SPXHANDLE_INVALID then c + 1 else c

/-- Modelled from the spec: track registers the object in the table of its role
and returns a fresh, currently unused handle. -/
def TrackHandle (env : Env) (k : TableKind) (o : ObjId) : M SPXHANDLE := fun s =>
  let h := freshHandle env (s.tables k)
  (.ok h, { s with
    tables := Function.update s.tables k ((h, o) :: s.tables k)
    trace := s.trace ++ [.track k o h] })

/-! ## Capability queries and collaborators -/

/-- Read the current state. -/
def getState : M State := fun s => (.ok s, s)

/-- The query SpxQueryInterface for ISpxNamedProperties: the bag of the object,
or null when the pointer is null or the object does not expose the capability.
The bag is read at the query; no source bag changes between its query and its copy. -/
def SpxQueryInterface_ISpxNamedProperties (o : Option ObjId) : M (Option Bag) := fun s =>
  (.ok (o.bind fun i => (s.heap i).namedProperties), s)

/-- The query SpxQueryInterface for another capability: the same object under
that view, or null when the object does not expose it. -/
def SpxQueryInterface (has : Obj → Bool) (o : ObjId) : M (Option ObjId) := fun s =>
  (.ok (if has (s.heap o) then some o else none), s)

/-- The query SpxQueryInterface for ISpxGenericSite on a shared pointer: the
same object under that view, or null when the pointer is null or the object
does not expose the view. -/
def SpxQueryInterface_ISpxGenericSite (o : Option ObjId) : M (Option ObjId) := fun s =>
  (.ok (o.bind fun i => if (s.heap i).genericSite then some i else none), s)

/-- The query SpxQueryService for the factory service of an object. -/
def SpxQueryService_ISpxSpeechApiFactory (o : ObjId) : M (Option ObjId) := fun s =>
  (.ok (s.heap o).factoryService, s)

/-- The query SpxQueryService for the session service of an object. -/
def SpxQueryService_ISpxSession (o : ObjId) : M (Option ObjId) := fun s =>
  (.ok (s.heap o).sessionService, s)

/-- Modelled from the spec: SpxCreateObjectWithSite gives a freshly created
factory, whose bag holds no key yet, or null.  The factory is identified with
the bag it holds. -/
def SpxCreateObjectWithSite (env : Env) (className : String) : M (Option Bag) := do
  emit (.createObject className (env.canCreate className))
  pure (if env.canCreate className then some Bag.empty else none)

/-- The call dst->Copy(src.get()): the destination pointer is dereferenced, the
source pointer is handed to Copy as it is.  The result is the destination
pointer with its new content. -/
def Copy (env : Env) (dst : Option Bag) (src : Option Bag) : M (Option Bag) := do
  let d ← deref dst
  emit (.copy src)
  match src with
  | some b => pure (some (d.Copy b))
  | none =>
    match env.copyNull with
    | none => pure (some d)
    | some a => fun s => (.error a, s)

/-- The call ((*factory).*fm)(audio): the factory method builds the new object
from the bag the factory holds and the audio configuration. -/
def invoke (env : Env) (factory : Option Bag) (fm : FactoryMethod) (audio : Option ObjId) :
    M ObjId := do
  let bag ← deref factory
  emit (.factoryMethod fm bag audio)
  fun s =>
    match env.construct fm bag (audio.map s.heap) with
    | .ok obj =>
      (.ok s.nextObj,
        { s with heap := Function.update s.heap s.nextObj obj, nextObj := s.nextObj + 1 })
    | .error f => (.error (.thrown f), s)

/-- The helper ThrowInvalidArgumentException. -/
def ThrowInvalidArgumentException {α : Type} : M α := throwHR .invalid_argument_exception

/-! ## The helpers and the cascade -/

/-- The helper AudioConfigFromHandleOrEmptyIfInvalid. -/
def AudioConfigFromHandleOrEmptyIfInvalid (env : Env) (haudioConfig : SPXHANDLE) :
    M (Option ObjId) := do
  let s ← getState
  if audio_config_is_handle_valid env s haudioConfig then
    let o ← resolve env .audioConfig haudioConfig
    pure (some o)
  else
    pure none

/-- The helper AutoDetectSourceLangConfigFromHandleOrEmptyIfInvalid. -/
def AutoDetectSourceLangConfigFromHandleOrEmptyIfInvalid (env : Env)
    (hautoDetectSourceLangConfig : SPXHANDLE) : M (Option ObjId) := do
  let s ← getState
  if auto_detect_source_lang_config_is_handle_valid env s hautoDetectSourceLangConfig then
    let o ← resolve env .autoDetectSourceLangConfig hautoDetectSourceLangConfig
    pure (some o)
  else
    pure none

/-- The helper SourceLangConfigFromHandleOrEmptyIfInvalid. -/
def SourceLangConfigFromHandleOrEmptyIfInvalid (env : Env) (hSourceLangConfig : SPXHANDLE) :
    M (Option ObjId) := do
  let s ← getState
  if source_lang_config_is_handle_valid env s hSourceLangConfig then
    let o ← resolve env .sourceLangConfig hSourceLangConfig
    pure (some o)
  else
    pure none

/-- Whether the bag pointer is non-null and its bag defines the endpoint id. -/
def definesEndpointId (env : Env) (config_property_bag : Option Bag) : Bool :=
  match config_property_bag with
  | some b => b.HasStringValue env.endpointIdName
  | none => false

/-- The template create_from_config: the configuration cascade. -/
def create_from_config (env : Env)
    (hspeechconfig hautoDetectSourceLangConfig hSourceLangConfig haudioConfig : SPXHANDLE)
    (fm : FactoryMethod) : M ObjId := do
  let factory ← SpxCreateObjectWithSite env "CSpxSpeechApiFactory"
  SPX_IFTRUE_THROW_HR factory.isNone .runtime_error
  let config ← resolve env .speechConfig hspeechconfig
  let config_property_bag ← SpxQueryInterface_ISpxNamedProperties (some config)
  let factory_property_bag := factory
  let factory_property_bag ←
    (if config_property_bag.isSome then Copy env factory_property_bag config_property_bag
     else pure factory_property_bag)
  let audio_input ← AudioConfigFromHandleOrEmptyIfInvalid env haudioConfig
  let audio_input_properties ← SpxQueryInterface_ISpxNamedProperties audio_input
  let factory_property_bag ←
    (if audio_input_properties.isSome then Copy env factory_property_bag audio_input_properties
     else pure factory_property_bag)
  let auto_detect_source_lang_config ←
    AutoDetectSourceLangConfigFromHandleOrEmptyIfInvalid env hautoDetectSourceLangConfig
  let auto_detect_source_lang_config_properties ←
    SpxQueryInterface_ISpxNamedProperties auto_detect_source_lang_config
  let factory_property_bag ←
    (if auto_detect_source_lang_config_properties.isSome then do
      if definesEndpointId env config_property_bag then ThrowInvalidArgumentException
      Copy env factory_property_bag auto_detect_source_lang_config_properties
     else pure factory_property_bag)
  let source_lang_config ← SourceLangConfigFromHandleOrEmptyIfInvalid env hSourceLangConfig
  let source_lang_config_properties ←
    SpxQueryInterface_ISpxNamedProperties source_lang_config
  let factory_property_bag ←
    (if source_lang_config_properties.isSome then
      Copy env factory_property_bag source_lang_config_properties
     else pure factory_property_bag)
  invoke env factory_property_bag fm audio_input

/-! ## The API boundary -/

/-- The macros SPXAPI_INIT_HR_TRY and SPXAPI_CATCH_AND_RETURN_HR: the body runs,
a thrown status becomes the returned status, and nothing else crosses the
boundary.  A null dereference is not an exception and is not caught. -/
def SPXAPI_TRY (body : M Unit) (s : State) : Outcome × State :=
  match body s with
  | (.ok _, s1) => (.returned .SPX_NOERROR, s1)
  | (.error (.thrown f), s1) => (.returned (.failed f), s1)
  | (.error .null_dereference, s1) => (.undefined_behaviour, s1)

/-! ## The creation operations -/

/-- The operation recognizer_create_speech_recognizer_from_config. -/
def recognizer_create_speech_recognizer_from_config (env : Env) (phreco : Option Loc)
    (hspeechconfig haudioInput : SPXHANDLE) (s : State) : Outcome × State :=
  match phreco with
  | none => (.returned SPXERR_INVALID_ARG, s)
  | some p =>
    if !speech_config_is_handle_valid env s hspeechconfig then
      (.returned SPXERR_INVALID_ARG, s)
    else
      SPXAPI_TRY (do
        store p env.SPXHANDLE_INVALID
        let recognizer ← create_from_config env hspeechconfig env.SPXHANDLE_INVALID
          env.SPXHANDLE_INVALID haudioInput .CreateSpeechRecognizerFromConfig
        let h ← TrackHandle env .recognizer recognizer
        store p h) s

/-- The operation recognizer_create_speech_recognizer_from_auto_detect_source_lang_config. -/
def recognizer_create_speech_recognizer_from_auto_detect_source_lang_config (env : Env)
    (phreco : Option Loc) (hspeechconfig hautoDetectSourceLangConfig haudioInput : SPXHANDLE)
    (s : State) : Outcome × State :=
  match phreco with
  | none => (.returned SPXERR_INVALID_ARG, s)
  | some p =>
    if !speech_config_is_handle_valid env s hspeechconfig then
      (.returned SPXERR_INVALID_ARG, s)
    else if !auto_detect_source_lang_config_is_handle_valid env s hautoDetectSourceLangConfig then
      (.returned SPXERR_INVALID_ARG, s)
    else
      SPXAPI_TRY (do
        store p env.SPXHANDLE_INVALID
        let recognizer ← create_from_config env hspeechconfig hautoDetectSourceLangConfig
          env.SPXHANDLE_INVALID haudioInput .CreateSpeechRecognizerFromConfig
        let h ← TrackHandle env .recognizer recognizer
        store p h) s

/-- The operation recognizer_create_speech_recognizer_from_source_lang_config. -/
def recognizer_create_speech_recognizer_from_source_lang_config (env : Env)
    (phreco : Option Loc) (hspeechconfig hSourceLangConfig haudioInput : SPXHANDLE)
    (s : State) : Outcome × State :=
  match phreco with
  | none => (.returned SPXERR_INVALID_ARG, s)
  | some p =>
    if !speech_config_is_handle_valid env s hspeechconfig then
      (.returned SPXERR_INVALID_ARG, s)
    else if !source_lang_config_is_handle_valid env s hSourceLangConfig then
      (.returned SPXERR_INVALID_ARG, s)
    else
      SPXAPI_TRY (do
        store p env.SPXHANDLE_INVALID
        let recognizer ← create_from_config env hspeechconfig env.SPXHANDLE_INVALID
          hSourceLangConfig haudioInput .CreateSpeechRecognizerFromConfig
        let h ← TrackHandle env .recognizer recognizer
        store p h) s

/-- Replace the bag of an object (SetStringValue through its bag pointer). -/
def setNamedProperties (o : ObjId) (b : Bag) : M Unit := fun s =>
  (.ok (), { s with heap := Function.update s.heap o { s.heap o with namedProperties := some b } })

/-- The operation dialog_service_connector_create_dialog_service_connector_from_config. -/
def dialog_service_connector_create_dialog_service_connector_from_config (env : Env)
    (ph_dialog_service_connector : Option Loc)
    (h_dialog_service_config h_audio_input : SPXHANDLE) (s : State) : Outcome × State :=
  match ph_dialog_service_connector with
  | none => (.returned SPXERR_INVALID_ARG, s)
  | some p =>
    if !speech_config_is_handle_valid env s h_dialog_service_config then
      (.returned SPXERR_INVALID_ARG, s)
    else
      SPXAPI_TRY (do
        store p env.SPXHANDLE_INVALID
        let config ← resolve env .speechConfig h_dialog_service_config
        let config_property_bag ← SpxQueryInterface_ISpxNamedProperties (some config)
        let bag ← deref config_property_bag
        let enableKeywordVerification :=
          bag.GetStringValue env.keywordVerificationName "true"
        setNamedProperties config
          (bag.SetStringValue env.keywordVerificationName enableKeywordVerification)
        let connector ← create_from_config env h_dialog_service_config env.SPXHANDLE_INVALID
          env.SPXHANDLE_INVALID h_audio_input .CreateDialogServiceConnectorFromConfig
        let h ← TrackHandle env .dialogServiceConnector connector
        store p h) s

/-- The operation recognizer_create_translation_recognizer_from_config. -/
def recognizer_create_translation_recognizer_from_config (env : Env) (phreco : Option Loc)
    (hspeechconfig haudioInput : SPXHANDLE) (s : State) : Outcome × State :=
  match phreco with
  | none => (.returned SPXERR_INVALID_ARG, s)
  | some p =>
    if !speech_config_is_handle_valid env s hspeechconfig then
      (.returned SPXERR_INVALID_ARG, s)
    else
      SPXAPI_TRY (do
        store p env.SPXHANDLE_INVALID
        let factory ← SpxCreateObjectWithSite env "CSpxSpeechApiFactory"
        let speechconfig ← resolve env .speechConfig hspeechconfig
        let speechconfig_propertybag ← SpxQueryInterface_ISpxNamedProperties (some speechconfig)
        let fbag := factory
        let fbag ← Copy env fbag speechconfig_propertybag
        let audioInput ← AudioConfigFromHandleOrEmptyIfInvalid env haudioInput
        let audioInput_propertybag ← SpxQueryInterface_ISpxNamedProperties audioInput
        let fbag ←
          (if audioInput_propertybag.isSome then Copy env fbag audioInput_propertybag
           else pure fbag)
        let recognizer ← invoke env fbag .CreateTranslationRecognizerFromConfig audioInput
        let h ← TrackHandle env .recognizer recognizer
        store p h) s

/-- The operation recognizer_create_intent_recognizer_from_config. -/
def recognizer_create_intent_recognizer_from_config (env : Env) (phreco : Option Loc)
    (hspeechconfig haudioInput : SPXHANDLE) (s : State) : Outcome × State :=
  match phreco with
  | none => (.returned SPXERR_INVALID_ARG, s)
  | some p =>
    if !speech_config_is_handle_valid env s hspeechconfig then
      (.returned SPXERR_INVALID_ARG, s)
    else
      SPXAPI_TRY (do
        store p env.SPXHANDLE_INVALID
        let recognizer ← create_from_config env hspeechconfig env.SPXHANDLE_INVALID
          env.SPXHANDLE_INVALID haudioInput .CreateIntentRecognizerFromConfig
        let h ← TrackHandle env .recognizer recognizer
        store p h) s

/-- The operation synthesizer_create_speech_synthesizer_from_config. -/
def synthesizer_create_speech_synthesizer_from_config (env : Env) (phsynth : Option Loc)
    (hspeechconfig haudioconfig : SPXHANDLE) (s : State) : Outcome × State :=
  match phsynth with
  | none => (.returned SPXERR_INVALID_ARG, s)
  | some p =>
    if !speech_config_is_handle_valid env s hspeechconfig then
      (.returned SPXERR_INVALID_ARG, s)
    else
      SPXAPI_TRY (do
        store p env.SPXHANDLE_INVALID
        let speechconfig ← resolve env .speechConfig hspeechconfig
        let speechconfig_propertybag ← SpxQueryInterface_ISpxNamedProperties (some speechconfig)
        let factory ← SpxCreateObjectWithSite env "CSpxSpeechSynthesisApiFactory"
        SPX_IFTRUE_THROW_HR factory.isNone .runtime_error
        let fbag := factory
        let fbag ← Copy env fbag speechconfig_propertybag
        let audioOutput ← AudioConfigFromHandleOrEmptyIfInvalid env haudioconfig
        let synthesizer ← invoke env fbag .CreateSpeechSynthesizerFromConfig audioOutput
        let h ← TrackHandle env .synthesizer synthesizer
        store p h) s

/-- The operation conversation_create_from_config.  The id is a C string, null
when `none`. -/
def conversation_create_from_config (env : Env) (pconversation : Option Loc)
    (hspeechconfig : SPXHANDLE) (id : Option String) (s : State) : Outcome × State :=
  match pconversation with
  | none => (.returned SPXERR_INVALID_ARG, s)
  | some p =>
    if !speech_config_is_handle_valid env s hspeechconfig then
      (.returned SPXERR_INVALID_ARG, s)
    else
      match id with
      | none => (.returned SPXERR_INVALID_ARG, s)
      | some id =>
        SPXAPI_TRY (do
          store p env.SPXHANDLE_INVALID
          let speechconfig ← resolve env .speechConfig hspeechconfig
          let speechconfig_propertybag ←
            SpxQueryInterface_ISpxNamedProperties (some speechconfig)
          let factory ← SpxCreateObjectWithSite env "CSpxSpeechApiFactory"
          SPX_IFTRUE_THROW_HR factory.isNone .runtime_error
          let fbag := factory
          let fbag ←
            (if speechconfig_propertybag.isSome then Copy env fbag speechconfig_propertybag
             else pure fbag)
          let conversation ← invoke env fbag (.CreateConversationFromConfig id) none
          let h ← TrackHandle env .conversation conversation
          store p h) s

/-- The call SpxCreateObject for the class CSpxConversationTranscriber. -/
def SpxCreateObject_CSpxConversationTranscriber (env : Env) : M (Option Obj) := do
  emit (.createObject "CSpxConversationTranscriber" env.newTranscriber.isSome)
  pure env.newTranscriber

/-- The call Init of the new transcriber, which may throw. -/
def transcriberInit (env : Env) (t : Obj) (audio : Option ObjId) : M Obj := do
  emit (.transcriberInit audio)
  match env.transcriberInit t audio with
  | .ok t1 => pure t1
  | .error f => throwHR f

/-- Place a new object on the heap. -/
def alloc (o : Obj) : M ObjId := fun s =>
  (.ok s.nextObj, { s with heap := Function.update s.heap s.nextObj o, nextObj := s.nextObj + 1 })

/-- The operation recognizer_create_conversation_transcriber_from_config.  The
return of SPXERR_INVALID_ARG from inside the try block is written as a throw of
the same status: both leave the block at once with that status. -/
def recognizer_create_conversation_transcriber_from_config (env : Env) (phreco : Option Loc)
    (haudioinput : SPXHANDLE) (s : State) : Outcome × State :=
  match phreco with
  | none => (.returned SPXERR_INVALID_ARG, s)
  | some p =>
    SPXAPI_TRY (do
      store p env.SPXHANDLE_INVALID
      let conversation_transcriber ← SpxCreateObject_CSpxConversationTranscriber env
      let audioInput ← AudioConfigFromHandleOrEmptyIfInvalid env haudioinput
      let audioInput_propertybag ← SpxQueryInterface_ISpxNamedProperties audioInput
      let propertybag_cts := conversation_transcriber.bind fun t => t.namedProperties
      let propertybag_cts ←
        (if audioInput_propertybag.isSome then Copy env propertybag_cts audioInput_propertybag
         else pure propertybag_cts)
      let conversation_transcriber_init :=
        conversation_transcriber.bind fun t =>
          if t.conversationTranscriber.isSome then some t else none
      SPX_IFTRUE_THROW_HR conversation_transcriber_init.isNone .invalid_arg
      let t ← deref conversation_transcriber_init
      let t ← transcriberInit env { t with namedProperties := propertybag_cts } audioInput
      let o ← alloc t
      let h ← TrackHandle env .recognizer o
      store p h) s

/-! ## Join and leave -/

/-- Modelled from the spec: SetSite installs the site of the object. -/
def SetSite (o : Option ObjId) (site : Option ObjId) : M Unit := do
  let t ← deref o
  fun s => (.ok (),
    { s with heap := Function.update s.heap t { s.heap t with objectWithSite := some site } })

/-- The call GetAudioConfig of the view ISpxGetAudioConfig. -/
def GetAudioConfig (o : Option ObjId) : M (Option ObjId) := do
  let t ← deref o
  fun s => (.ok ((s.heap t).getAudioConfig.getD none), s)

/-- Modelled from the spec: InitSessionFromAudioInputConfig registers the audio
configuration with the session. -/
def InitSessionFromAudioInputConfig (factory session : Option ObjId) (audio : Option ObjId) :
    M Unit := do
  let _ ← deref factory
  let sess ← deref session
  fun s => (.ok (),
    { s with heap := Function.update s.heap sess (
        { s.heap sess with sessionAudio := audio :: (s.heap sess).sessionAudio }) })

/-- Modelled from the spec: JoinConversation binds the transcriber to the conversation. -/
def JoinConversation (o : Option ObjId) (conversation : ObjId) : M Unit := do
  let t ← deref o
  fun s => (.ok (),
    { s with heap := Function.update s.heap t (
        { s.heap t with conversationTranscriber := some (some conversation) }) })

/-- Modelled from the spec: AddRecognizer adds the recognizer to the active
recognizer set of the session. -/
def AddRecognizer (session : Option ObjId) (recognizer : ObjId) : M Unit := do
  let sess ← deref session
  fun s => (.ok (),
    { s with heap := Function.update s.heap sess (
        { s.heap sess with recognizers := recognizer :: (s.heap sess).recognizers }) })

/-- Modelled from the spec: LeaveConversation clears the association of the
transcriber with its conversation and clears its site. -/
def LeaveConversation (o : Option ObjId) : M Unit := do
  let t ← deref o
  fun s => (.ok (),
    { s with heap := Function.update s.heap t (
        { s.heap t with
          conversationTranscriber := some none
          objectWithSite := (s.heap t).objectWithSite.map fun _ => none }) })

/-- The operation recognizer_join_conversation.  The site handed to SetSite
is the result of the query for ISpxGenericSite on the session, which the source
does not check: it is null when the session does not expose that view. -/
def recognizer_join_conversation (env : Env) (hconv hreco : SPXHANDLE) (s : State) :
    Outcome × State :=
  if hreco = nullptr then (.returned SPXERR_INVALID_ARG, s)
  else if hconv = nullptr then (.returned SPXERR_INVALID_ARG, s)
  else
    SPXAPI_TRY (do
      let conversation ← resolve env .conversation hconv
      let conversation_transcriber ← resolve env .recognizer hreco
      let factory ← SpxQueryService_ISpxSpeechApiFactory conversation
      SPX_IFTRUE_THROW_HR factory.isNone .runtime_error
      let session ← SpxQueryService_ISpxSession conversation
      SPX_IFTRUE_THROW_HR session.isNone .runtime_error
      let session_as_site ← SpxQueryInterface_ISpxGenericSite session
      let conversation_transcriber_set_site ←
        SpxQueryInterface (fun o => o.objectWithSite.isSome) conversation_transcriber
      SetSite conversation_transcriber_set_site session_as_site
      let audio_input ←
        SpxQueryInterface (fun o => o.getAudioConfig.isSome) conversation_transcriber
      let audio_config ← GetAudioConfig audio_input
      InitSessionFromAudioInputConfig factory session audio_config
      let transcriber_ptr ←
        SpxQueryInterface (fun o => o.conversationTranscriber.isSome) conversation_transcriber
      JoinConversation transcriber_ptr conversation
      AddRecognizer session conversation_transcriber) s

/-- The operation recognizer_leave_conversation. -/
def recognizer_leave_conversation (env : Env) (hreco : SPXHANDLE) (s : State) :
    Outcome × State :=
  if hreco = nullptr then (.returned SPXERR_INVALID_ARG, s)
  else
    SPXAPI_TRY (do
      let conversation_transcriber ← resolve env .recognizer hreco
      let cts ←
        SpxQueryInterface (fun o => o.conversationTranscriber.isSome) conversation_transcriber
      LeaveConversation cts) s

/-! ## The calls of the creation operations, as data -/

/-- A call of one of the creation operations of this file, with its arguments. -/
inductive CreationCall where
  | speech_recognizer (phreco : Option Loc) (hspeechconfig haudioInput : SPXHANDLE)
  | speech_recognizer_from_auto_detect (phreco : Option Loc)
      (hspeechconfig hautoDetectSourceLangConfig haudioInput : SPXHANDLE)
  | speech_recognizer_from_source_lang (phreco : Option Loc)
      (hspeechconfig hSourceLangConfig haudioInput : SPXHANDLE)
  | dialog_service_connector (ph : Option Loc) (hconfig haudioInput : SPXHANDLE)
  | translation_recognizer (phreco : Option Loc) (hspeechconfig haudioInput : SPXHANDLE)
  | intent_recognizer (phreco : Option Loc) (hspeechconfig haudioInput : SPXHANDLE)
  | speech_synthesizer (phsynth : Option Loc) (hspeechconfig haudioconfig : SPXHANDLE)
  | conversation (pconversation : Option Loc) (hspeechconfig : SPXHANDLE) (id : Option String)
  | conversation_transcriber (phreco : Option Loc) (haudioinput : SPXHANDLE)

/-- Run the call. -/
def CreationCall.run (env : Env) : CreationCall → State → Outcome × State
  | .speech_recognizer p h a => recognizer_create_speech_recognizer_from_config env p h a
  | .speech_recognizer_from_auto_detect p h d a =>
    recognizer_create_speech_recognizer_from_auto_detect_source_lang_config env p h d a
  | .speech_recognizer_from_source_lang p h l a =>
    recognizer_create_speech_recognizer_from_source_lang_config env p h l a
  | .dialog_service_connector p h a =>
    dialog_service_connector_create_dialog_service_connector_from_config env p h a
  | .translation_recognizer p h a => recognizer_create_translation_recognizer_from_config env p h a
  | .intent_recognizer p h a => recognizer_create_intent_recognizer_from_config env p h a
  | .speech_synthesizer p h a => synthesizer_create_speech_synthesizer_from_config env p h a
  | .conversation p h id => conversation_create_from_config env p h id
  | .conversation_transcriber p a => recognizer_create_conversation_transcriber_from_config env p a

/-- The output pointer of the call. -/
def CreationCall.out : CreationCall → Option Loc
  | .speech_recognizer p _ _ => p
  | .speech_recognizer_from_auto_detect p _ _ _ => p
  | .speech_recognizer_from_source_lang p _ _ _ => p
  | .dialog_service_connector p _ _ => p
  | .translation_recognizer p _ _ => p
  | .intent_recognizer p _ _ => p
  | .speech_synthesizer p _ _ => p
  | .conversation p _ _ => p
  | .conversation_transcriber p _ => p

/-- The argument checks an operation makes after the check of its output
pointer and before its try block (the SPX_RETURN_HR_IF lines): whether the
arguments pass them all. -/
def CreationCall.argumentsPass (env : Env) (s : State) : CreationCall → Bool
  | .speech_recognizer _ h _ => speech_config_is_handle_valid env s h
  | .speech_recognizer_from_auto_detect _ h d _ =>
    speech_config_is_handle_valid env s h && auto_detect_source_lang_config_is_handle_valid env s d
  | .speech_recognizer_from_source_lang _ h l _ =>
    speech_config_is_handle_valid env s h && source_lang_config_is_handle_valid env s l
  | .dialog_service_connector _ h _ => speech_config_is_handle_valid env s h
  | .translation_recognizer _ h _ => speech_config_is_handle_valid env s h
  | .intent_recognizer _ h _ => speech_config_is_handle_valid env s h
  | .speech_synthesizer _ h _ => speech_config_is_handle_valid env s h
  | .conversation _ h id => speech_config_is_handle_valid env s h && id.isSome
  | .conversation_transcriber _ _ => true

/-! ## Example states -/

/-- An environment in which every collaborator succeeds. -/
def env0 : Env where
  SPXHANDLE_INVALID := 18446744073709551615
  endpointIdName := "SPEECH-EndpointId"
  keywordVerificationName := "KeywordConfig_EnableKeywordVerification"
  canCreate := fun _ => true
  lookupFailure := .other 33
  copyNull := some (.thrown .invalid_arg)
  construct := fun _ bag _ => .ok { namedProperties := some bag }
  newTranscriber := some { namedProperties := some Bag.empty, objectWithSite := some none,
                           getAudioConfig := some none, conversationTranscriber := some none }
  transcriberInit := fun t a => .ok { t with getAudioConfig := some a }

/-- The bag with one key. -/
def Bag.single (k v : String) : Bag := Bag.empty.SetStringValue k v

/-- An object that exposes a property bag and nothing else. -/
def Obj.ofBag (b : Bag) : Obj := { namedProperties := some b }

/-- An object that exposes no capability. -/
def Obj.bare : Obj := {}

/-- A state from its objects and handle tables: nothing in memory, nothing traced. -/
def State.ofTables (heap : ObjId → Obj) (nextObj : ObjId) (tables : TableKind → Table) : State :=
  { heap := heap, nextObj := nextObj, tables := tables, mem := fun _ => 0, trace := [] }

/-! ## Definitions used to state the results -/

/-- Append events to the trace. -/
def State.log (s : State) (evs : List Event) : State := { s with trace := s.trace ++ evs }

/-- The events of an optional lookup: one lookup when the handle is valid. -/
def resolveEvents (k : TableKind) (h : SPXHANDLE) (found : Option ObjId) : List Event :=
  match found with
  | some o => [.resolve k h (some o)]
  | none => []

/-- The events of a guarded copy: one copy when the source bag is there. -/
def copyEvents (q : Option Bag) : List Event :=
  match q with
  | some b => [.copy (some b)]
  | none => []

/-- The bag after a guarded copy. -/
def mergeOpt (b : Bag) (q : Option Bag) : Bag :=
  match q with
  | some x => b.Copy x
  | none => b

/-- The object a handle stands for in the table of a role, when it is valid. -/
def objectOf (env : Env) (s : State) (k : TableKind) (h : SPXHANDLE) : Option ObjId :=
  Table.find env (s.tables k) h

/-- The bag a source contributes: the bag of the object of the handle, when
the handle is valid in the table of its role and the object carries a bag. -/
def sourceBag (env : Env) (s : State) (k : TableKind) (h : SPXHANDLE) : Option Bag :=
  (objectOf env s k h).bind fun i => (s.heap i).namedProperties

/-- The state after a successful factory method: the new object is on the heap. -/
def State.withNew (s : State) (obj : Obj) : State :=
  { s with heap := Function.update s.heap s.nextObj obj, nextObj := s.nextObj + 1 }

/-- The cascade in closed form: what create_from_config computes, case by case. -/
def cascade (env : Env) (hspeechconfig hautoDetectSourceLangConfig hSourceLangConfig
    haudioConfig : SPXHANDLE) (fm : FactoryMethod) (s : State) : Except Abort ObjId × State :=
  if env.canCreate "CSpxSpeechApiFactory" then
    match objectOf env s .speechConfig hspeechconfig with
    | none =>
      (.error (.thrown env.lookupFailure),
        s.log [.createObject "CSpxSpeechApiFactory" true,
               .resolve .speechConfig hspeechconfig none])
    | some c =>
      let base := (s.heap c).namedProperties
      let audio := objectOf env s .audioConfig haudioConfig
      let audioBag := sourceBag env s .audioConfig haudioConfig
      let auto := objectOf env s .autoDetectSourceLangConfig hautoDetectSourceLangConfig
      let autoBag := sourceBag env s .autoDetectSourceLangConfig hautoDetectSourceLangConfig
      let src := objectOf env s .sourceLangConfig hSourceLangConfig
      let srcBag := sourceBag env s .sourceLangConfig hSourceLangConfig
      let evs1 : List Event :=
        [.createObject "CSpxSpeechApiFactory" true,
         .resolve .speechConfig hspeechconfig (some c)]
        ++ copyEvents base ++ resolveEvents .audioConfig haudioConfig audio
        ++ copyEvents audioBag
        ++ resolveEvents .autoDetectSourceLangConfig hautoDetectSourceLangConfig auto
      if autoBag.isSome && definesEndpointId env base then
        (.error (.thrown .invalid_argument_exception), s.log evs1)
      else
        let bag := mergeOpt (mergeOpt (mergeOpt (mergeOpt Bag.empty base) audioBag) autoBag) srcBag
        let s2 := s.log (evs1 ++ copyEvents autoBag
          ++ resolveEvents .sourceLangConfig hSourceLangConfig src ++ copyEvents srcBag
          ++ [.factoryMethod fm bag audio])
        match env.construct fm bag (audio.map s.heap) with
        | .ok obj => (.ok s.nextObj, s2.withNew obj)
        | .error f => (.error (.thrown f), s2)
  else
    (.error (.thrown .runtime_error), s.log [.createObject "CSpxSpeechApiFactory" false])

/-- The events a call added to the trace. -/
def newEvents (before after : State) : List Event := after.trace.drop before.trace.length

/-- A computation that never writes to the caller's memory. -/
def KeepsMem {α : Type} (x : M α) : Prop := ∀ s, (x s).2.mem = s.mem

/-- A state with one speech config (handle 10) that carries the bag a = 1. -/
def st1 : State :=
  State.ofTables (fun i => if i = 0 then Obj.ofBag (Bag.single "a" "1") else Obj.bare) 1
    (fun k => match k with
      | .speechConfig => [(10, 0)]
      | _ => [])


/-- The state after a write through an output pointer. -/
def State.setMem (s : State) (p : Loc) (h : SPXHANDLE) : State :=
  { s with mem := Function.update s.mem p h }

/-- The state after TrackHandle registered an object. -/
def State.tracked (s : State) (env : Env) (k : TableKind) (o : ObjId) : State :=
  { s with
    tables := Function.update s.tables k ((freshHandle env (s.tables k), o) :: s.tables k)
    trace := s.trace ++ [.track k o (freshHandle env (s.tables k))] }

/-- The invocations of factory methods among the events, each with the bag the
factory held and the audio configuration it was handed. -/
def factoryCalls (evs : List Event) : List (FactoryMethod × Bag × Option ObjId) :=
  evs.filterMap fun e =>
    match e with
    | .factoryMethod fm b a => some (fm, b, a)
    | _ => none

/-- The four sources of the cascade in their fixed order: base speech config,
audio config, auto-detect-source-language config, source-language config.  A
source is `none` when its handle is not valid or its object carries no bag. -/
def cascadeSources (env : Env) (s : State)
    (hspeechconfig hautoDetectSourceLangConfig hSourceLangConfig haudioConfig : SPXHANDLE) :
    List (Option Bag) :=
  [sourceBag env s .speechConfig hspeechconfig,
   sourceBag env s .audioConfig haudioConfig,
   sourceBag env s .autoDetectSourceLangConfig hautoDetectSourceLangConfig,
   sourceBag env s .sourceLangConfig hSourceLangConfig]

/-- In the words of the specification: the value of the key in the last of the
sources, in their order, that is supplied, carries a bag and defines the key. -/
def lastDefining (sources : List (Option Bag)) (K : String) : Option String :=
  match sources with
  | [] => none
  | src :: rest =>
    match lastDefining rest K with
    | some v => some v
    | none => src.bind fun b => b K

/-- The configuration conflict: the auto-detect config contributes a bag and the
bag of the base config defines the endpoint id. -/
def cascadeConflict (env : Env) (s : State)
    (hspeechconfig hautoDetectSourceLangConfig : SPXHANDLE) : Bool :=
  (sourceBag env s .autoDetectSourceLangConfig hautoDetectSourceLangConfig).isSome
    && definesEndpointId env (sourceBag env s .speechConfig hspeechconfig)

/-- The bag the cascade has merged when it invokes the factory method. -/
def mergedBag (env : Env) (s : State)
    (hspeechconfig hautoDetectSourceLangConfig hSourceLangConfig haudioConfig : SPXHANDLE) :
    Bag :=
  mergeOpt (mergeOpt (mergeOpt (mergeOpt Bag.empty
    (sourceBag env s .speechConfig hspeechconfig))
    (sourceBag env s .audioConfig haudioConfig))
    (sourceBag env s .autoDetectSourceLangConfig hautoDetectSourceLangConfig))
    (sourceBag env s .sourceLangConfig hSourceLangConfig)

/-- A state with a speech config (handle 10, bag k = base, other = o) and an
audio config (handle 20, bag k = audio). -/
def st2 : State :=
  State.ofTables
    (fun i =>
      if i = 0 then Obj.ofBag ((Bag.single "k" "base").SetStringValue "other" "o")
      else if i = 1 then Obj.ofBag (Bag.single "k" "audio")
      else Obj.bare) 2
    (fun k => match k with
      | .speechConfig => [(10, 0)]
      | .audioConfig => [(20, 1)]
      | _ => [])

/-- A bag that defines the endpoint id of env0. -/
def bagWithEndpoint : Bag := Bag.single "SPEECH-EndpointId" "my-endpoint"

/-- A state with a speech config (handle 10) whose bag defines the endpoint id,
an auto-detect config (handle 30) whose object carries no property bag, and an
auto-detect config (handle 31) whose object carries a bag. -/
def st3 : State :=
  State.ofTables
    (fun i =>
      if i = 0 then Obj.ofBag bagWithEndpoint
      else if i = 2 then Obj.ofBag (Bag.single "languages" "en-US,de-DE")
      else Obj.bare) 3
    (fun k => match k with
      | .speechConfig => [(10, 0)]
      | .autoDetectSourceLangConfig => [(30, 1), (31, 2)]
      | _ => [])

/-- The state after the bag of an object was replaced. -/
def State.withBag (s : State) (o : ObjId) (b : Bag) : State :=
  { s with heap := Function.update s.heap o { s.heap o with namedProperties := some b } }

/-- The bag of the dialog service config after the operation has defaulted the
keyword verification property. -/
def withKeywordVerification (env : Env) (b : Bag) : Bag :=
  b.SetStringValue env.keywordVerificationName
    (b.GetStringValue env.keywordVerificationName "true")

/-- The state in which the dialog service connector operation enters the
cascade: the output location reset, the config resolved, its bag updated. -/
def dialogPrepared (env : Env) (s : State) (p : Loc) (hconfig : SPXHANDLE) (c : ObjId)
    (b : Bag) : State :=
  (((s.setMem p env.SPXHANDLE_INVALID).log [.resolve .speechConfig hconfig (some c)]).withBag c
    (withKeywordVerification env b))

/-- The base speech-config handle of the call, if the operation takes one. -/
def CreationCall.base : CreationCall → Option SPXHANDLE
  | .speech_recognizer _ h _ => some h
  | .speech_recognizer_from_auto_detect _ h _ _ => some h
  | .speech_recognizer_from_source_lang _ h _ _ => some h
  | .dialog_service_connector _ h _ => some h
  | .translation_recognizer _ h _ => some h
  | .intent_recognizer _ h _ => some h
  | .speech_synthesizer _ h _ => some h
  | .conversation _ h _ => some h
  | .conversation_transcriber _ _ => none

/-- The auxiliary handles of the call: audio, auto-detect, source language. -/
def CreationCall.auxiliary : CreationCall → List SPXHANDLE
  | .speech_recognizer _ _ a => [a]
  | .speech_recognizer_from_auto_detect _ _ d a => [d, a]
  | .speech_recognizer_from_source_lang _ _ l a => [l, a]
  | .dialog_service_connector _ _ a => [a]
  | .translation_recognizer _ _ a => [a]
  | .intent_recognizer _ _ a => [a]
  | .speech_synthesizer _ _ a => [a]
  | .conversation _ _ _ => []
  | .conversation_transcriber _ a => [a]

/-- Whether the call is of the dialog service connector operation. -/
def CreationCall.isDialog : CreationCall → Bool
  | .dialog_service_connector _ _ _ => true
  | _ => false

/-- The class of the factory the operation creates. -/
def CreationCall.factoryClass : CreationCall → String
  | .speech_synthesizer _ _ _ => "CSpxSpeechSynthesisApiFactory"
  | _ => "CSpxSpeechApiFactory"

/-- A state with one speech config (handle 10) whose bag is empty. -/
def st4 : State :=
  State.ofTables (fun _ => Obj.ofBag Bag.empty) 1
    (fun k => match k with
      | .speechConfig => [(10, 0)]
      | _ => [])

/-- Whether the event is a call of Copy with a null source. -/
def Event.isNullCopy : Event → Bool
  | .copy none => true
  | _ => false

/-- Whether the event is a handle lookup that found the object. -/
def Event.isResolved : Event → Bool
  | .resolve _ _ (some _) => true
  | _ => false

/-- A state with one speech config (handle 10) whose object exposes no property bag. -/
def stBare : State :=
  State.ofTables (fun _ => Obj.bare) 1
    (fun k => match k with
      | .speechConfig => [(10, 0)]
      | _ => [])

/-- Whether every required input handle of the call is valid in the table of
its role (the conversation transcriber operation requires none). -/
def CreationCall.requiredHandlesValid (env : Env) (s : State) : CreationCall → Bool
  | .speech_recognizer _ h _ => speech_config_is_handle_valid env s h
  | .speech_recognizer_from_auto_detect _ h d _ =>
    speech_config_is_handle_valid env s h && auto_detect_source_lang_config_is_handle_valid env s d
  | .speech_recognizer_from_source_lang _ h l _ =>
    speech_config_is_handle_valid env s h && source_lang_config_is_handle_valid env s l
  | .dialog_service_connector _ h _ => speech_config_is_handle_valid env s h
  | .translation_recognizer _ h _ => speech_config_is_handle_valid env s h
  | .intent_recognizer _ h _ => speech_config_is_handle_valid env s h
  | .speech_synthesizer _ h _ => speech_config_is_handle_valid env s h
  | .conversation _ h _ => speech_config_is_handle_valid env s h
  | .conversation_transcriber _ _ => true

/-- A conversation transcriber, not attached, with the given audio configuration. -/
def Obj.transcriber (audio : Option ObjId) : Obj :=
  { namedProperties := some Bag.empty, objectWithSite := some none,
    getAudioConfig := some audio, conversationTranscriber := some none }

/-- A state with a conversation (handle 40, object 0) that exposes its session
(object 1) and the factory (object 2), a conversation transcriber (handle 50,
object 3) and a dialog service connector (handle 60, object 4). -/
def st8 : State :=
  State.ofTables
    (fun i =>
      if i = 0 then { sessionService := some 1, factoryService := some 2 }
      else if i = 3 then Obj.transcriber none
      else Obj.bare) 5
    (fun k => match k with
      | .conversation => [(40, 0)]
      | .recognizer => [(50, 3)]
      | .dialogServiceConnector => [(60, 4)]
      | _ => [])

@[simp] theorem State.log_heap (s : State) (evs : List Event) : (s.log evs).heap = s.heap := rfl
@[simp] theorem State.log_nextObj (s : State) (evs : List Event) : (s.log evs).nextObj = s.nextObj := rfl
@[simp] theorem State.log_tables (s : State) (evs : List Event) : (s.log evs).tables = s.tables := rfl
@[simp] theorem State.log_mem (s : State) (evs : List Event) : (s.log evs).mem = s.mem := rfl
@[simp] theorem State.log_trace (s : State) (evs : List Event) : (s.log evs).trace = s.trace ++ evs := rfl
@[simp] theorem State.log_log (s : State) (a b : List Event) : (s.log a).log b = s.log (a ++ b) := by
  simp [State.log]
@[simp] theorem State.log_nil (s : State) : s.log [] = s := by
  simp [State.log]

@[simp] theorem M.bind_apply {α β : Type} (x : M α) (f : α → M β) (s : State) :
    (x >>= f) s = match x s with
      | (.ok a, s1) => f a s1
      | (.error e, s1) => (.error e, s1) := rfl

@[simp] theorem M.pure_apply {α : Type} (a : α) (s : State) : (pure a : M α) s = (.ok a, s) := rfl

@[simp] theorem emit_apply (e : Event) (s : State) : emit e s = (.ok (), s.log [e]) := rfl

@[simp] theorem getState_apply (s : State) : getState s = (.ok s, s) := rfl

@[simp] theorem throwHR_apply {α : Type} (f : Failure) (s : State) :
    (throwHR f : M α) s = (.error (.thrown f), s) := rfl

@[simp] theorem deref_some {α : Type} (a : α) (s : State) : deref (some a) s = (.ok a, s) := rfl

@[simp] theorem deref_none {α : Type} (s : State) :
    deref (none : Option α) s = (.error .null_dereference, s) := rfl

@[simp] theorem query_props_apply (o : Option ObjId) (s : State) :
    SpxQueryInterface_ISpxNamedProperties o s
      = (.ok (o.bind fun i => (s.heap i).namedProperties), s) := rfl

@[simp] theorem objectOf_log (env : Env) (s : State) (evs : List Event) (k : TableKind)
    (h : SPXHANDLE) : objectOf env (s.log evs) k h = objectOf env s k h := rfl

@[simp] theorem sourceBag_log (env : Env) (s : State) (evs : List Event) (k : TableKind)
    (h : SPXHANDLE) : sourceBag env (s.log evs) k h = sourceBag env s k h := rfl

theorem Copy_some (env : Env) (b x : Bag) (s : State) :
    Copy env (some b) (some x) s = (.ok (some (b.Copy x)), s.log [.copy (some x)]) := rfl

theorem sourceBag_def (env : Env) (s : State) (k : TableKind) (h : SPXHANDLE) :
    ((objectOf env s k h).bind fun i => (s.heap i).namedProperties) = sourceBag env s k h := rfl

theorem auto_step (env : Env) (b : Bag) (base q : Option Bag) (s : State) :
    (if q.isSome = true then (do
        if definesEndpointId env base then ThrowInvalidArgumentException
        Copy env (some b) q)
      else pure (some b)) s
      = if (q.isSome && definesEndpointId env base) = true then
          (.error (.thrown .invalid_argument_exception), s)
        else (.ok (some (mergeOpt b q)), s.log (copyEvents q)) := by
  cases q <;> cases hd : definesEndpointId env base <;>
    simp [Copy_some, mergeOpt, copyEvents, hd, ThrowInvalidArgumentException]

theorem invoke_some (env : Env) (b : Bag) (fm : FactoryMethod) (audio : Option ObjId)
    (s : State) :
    invoke env (some b) fm audio s =
      match env.construct fm b (audio.map s.heap) with
      | .ok obj => (.ok s.nextObj, (s.log [.factoryMethod fm b audio]).withNew obj)
      | .error f => (.error (.thrown f), s.log [.factoryMethod fm b audio]) := by
  simp only [invoke, M.bind_apply, deref_some, emit_apply, State.log_heap]
  cases env.construct fm b (audio.map s.heap) <;> rfl

theorem resolve_apply (env : Env) (k : TableKind) (h : SPXHANDLE) (s : State) :
    resolve env k h s =
      (match objectOf env s k h with
        | some o => .ok o
        | none => .error (.thrown env.lookupFailure),
       s.log [.resolve k h (objectOf env s k h)]) := by
  unfold resolve objectOf
  cases Table.find env (s.tables k) h <;> rfl

theorem AudioConfigFromHandleOrEmptyIfInvalid_apply (env : Env) (h : SPXHANDLE) (s : State) :
    AudioConfigFromHandleOrEmptyIfInvalid env h s =
      (.ok (objectOf env s .audioConfig h),
       s.log (resolveEvents .audioConfig h (objectOf env s .audioConfig h))) := by
  simp only [AudioConfigFromHandleOrEmptyIfInvalid, M.bind_apply, getState_apply,
    audio_config_is_handle_valid, is_handle_valid]
  cases hf : objectOf env s .audioConfig h <;>
    simp_all [resolve_apply, hf, resolveEvents, objectOf]

theorem AutoDetectSourceLangConfigFromHandleOrEmptyIfInvalid_apply (env : Env) (h : SPXHANDLE)
    (s : State) :
    AutoDetectSourceLangConfigFromHandleOrEmptyIfInvalid env h s =
      (.ok (objectOf env s .autoDetectSourceLangConfig h),
       s.log (resolveEvents .autoDetectSourceLangConfig h
         (objectOf env s .autoDetectSourceLangConfig h))) := by
  simp only [AutoDetectSourceLangConfigFromHandleOrEmptyIfInvalid, M.bind_apply, getState_apply,
    auto_detect_source_lang_config_is_handle_valid, is_handle_valid]
  cases hf : objectOf env s .autoDetectSourceLangConfig h <;>
    simp_all [resolve_apply, hf, resolveEvents, objectOf]

theorem SourceLangConfigFromHandleOrEmptyIfInvalid_apply (env : Env) (h : SPXHANDLE)
    (s : State) :
    SourceLangConfigFromHandleOrEmptyIfInvalid env h s =
      (.ok (objectOf env s .sourceLangConfig h),
       s.log (resolveEvents .sourceLangConfig h (objectOf env s .sourceLangConfig h))) := by
  simp only [SourceLangConfigFromHandleOrEmptyIfInvalid, M.bind_apply, getState_apply,
    source_lang_config_is_handle_valid, is_handle_valid]
  cases hf : objectOf env s .sourceLangConfig h <;>
    simp_all [resolve_apply, hf, resolveEvents, objectOf]


theorem copy_step (env : Env) (b : Bag) (q : Option Bag) (s : State) :
    (if q.isSome = true then Copy env (some b) q else pure (some b)) s
      = (.ok (some (mergeOpt b q)), s.log (copyEvents q)) := by
  cases q <;> simp [Copy_some, mergeOpt, copyEvents]

theorem create_from_config_eq (env : Env) (hs ha hl hau : SPXHANDLE) (fm : FactoryMethod)
    (s : State) :
    create_from_config env hs ha hl hau fm s = cascade env hs ha hl hau fm s := by
  unfold create_from_config cascade
  cases hc : env.canCreate "CSpxSpeechApiFactory"
  · simp [SpxCreateObjectWithSite, SPX_IFTRUE_THROW_HR, hc]
  · cases hb : objectOf env s .speechConfig hs
    · simp [SpxCreateObjectWithSite, SPX_IFTRUE_THROW_HR, hc, resolve_apply, hb]
    · rename_i c
      simp only [SpxCreateObjectWithSite, SPX_IFTRUE_THROW_HR, hc, resolve_apply, hb, copy_step,
        AudioConfigFromHandleOrEmptyIfInvalid_apply,
        AutoDetectSourceLangConfigFromHandleOrEmptyIfInvalid_apply,
        SourceLangConfigFromHandleOrEmptyIfInvalid_apply, auto_step, M.bind_apply, M.pure_apply,
        emit_apply, objectOf_log, State.log_log, State.log_heap,
        query_props_apply, if_true, Option.isNone_some, Bool.false_eq_true, if_false,
        Option.some_bind, invoke_some, sourceBag]
      split_ifs with hcf
      · rfl
      · simp only [objectOf_log, State.log_log, State.log_heap, State.log_nextObj, copy_step,
          invoke_some, List.append_assoc, List.cons_append, List.nil_append]

/-! ## Lemmas: the output location -/

theorem KeepsMem_bind {α β : Type} {x : M α} {f : α → M β} (hx : KeepsMem x)
    (hf : ∀ a, KeepsMem (f a)) : KeepsMem (x >>= f) := by
  intro s
  have h1 := hx s
  simp only [M.bind_apply]
  rcases hxs : x s with ⟨r, s1⟩
  rw [hxs] at h1
  cases r with
  | error e => simpa using h1
  | ok a =>
    simp only at h1 ⊢
    rw [hf a s1, h1]

theorem KeepsMem_emit (e : Event) : KeepsMem (emit e) := fun _ => rfl

theorem KeepsMem_throwHR {α : Type} (f : Failure) : KeepsMem (throwHR f : M α) := fun _ => rfl

theorem KeepsMem_create_from_config (env : Env) (hs ha hl hau : SPXHANDLE)
    (fm : FactoryMethod) : KeepsMem (create_from_config env hs ha hl hau fm) := by
  intro s
  rw [create_from_config_eq]
  unfold cascade
  split
  · split
    · rfl
    · simp only []
      split
      · rfl
      · split <;> rfl
  · rfl

@[simp] theorem newEvents_log (s : State) (evs : List Event) : newEvents s (s.log evs) = evs := by
  simp [newEvents]

@[simp] theorem newEvents_self (s : State) : newEvents s s = [] := by
  simp [newEvents]

@[simp] theorem State.withNew_trace (s : State) (o : Obj) : (s.withNew o).trace = s.trace := rfl

@[simp] theorem State.withNew_mem (s : State) (o : Obj) : (s.withNew o).mem = s.mem := rfl

@[simp] theorem State.withNew_tables (s : State) (o : Obj) : (s.withNew o).tables = s.tables := rfl

@[simp] theorem State.setMem_trace (s : State) (p : Loc) (h : SPXHANDLE) :
    (s.setMem p h).trace = s.trace := rfl

@[simp] theorem State.setMem_heap (s : State) (p : Loc) (h : SPXHANDLE) :
    (s.setMem p h).heap = s.heap := rfl

@[simp] theorem State.setMem_tables (s : State) (p : Loc) (h : SPXHANDLE) :
    (s.setMem p h).tables = s.tables := rfl

@[simp] theorem State.setMem_nextObj (s : State) (p : Loc) (h : SPXHANDLE) :
    (s.setMem p h).nextObj = s.nextObj := rfl

@[simp] theorem State.setMem_mem (s : State) (p : Loc) (h : SPXHANDLE) :
    (s.setMem p h).mem p = h := by
  simp [State.setMem]

@[simp] theorem State.tracked_trace (s : State) (env : Env) (k : TableKind) (o : ObjId) :
    (s.tracked env k o).trace = s.trace ++ [.track k o (freshHandle env (s.tables k))] := rfl

@[simp] theorem State.tracked_heap (s : State) (env : Env) (k : TableKind) (o : ObjId) :
    (s.tracked env k o).heap = s.heap := rfl

@[simp] theorem State.tracked_mem (s : State) (env : Env) (k : TableKind) (o : ObjId) :
    (s.tracked env k o).mem = s.mem := rfl

@[simp] theorem objectOf_setMem (env : Env) (s : State) (p : Loc) (v : SPXHANDLE)
    (k : TableKind) (h : SPXHANDLE) : objectOf env (s.setMem p v) k h = objectOf env s k h := rfl

@[simp] theorem sourceBag_setMem (env : Env) (s : State) (p : Loc) (v : SPXHANDLE)
    (k : TableKind) (h : SPXHANDLE) : sourceBag env (s.setMem p v) k h = sourceBag env s k h := rfl

@[simp] theorem newEvents_setMem (s s1 : State) (p : Loc) (v : SPXHANDLE) :
    newEvents s (s1.setMem p v) = newEvents s s1 := rfl

@[simp] theorem newEvents_setMem_left (s s1 : State) (p : Loc) (v : SPXHANDLE) :
    newEvents (s.setMem p v) s1 = newEvents s s1 := rfl

@[simp] theorem newEvents_withNew (s s1 : State) (o : Obj) :
    newEvents s (s1.withNew o) = newEvents s s1 := rfl

theorem store_apply (p : Loc) (h : SPXHANDLE) (s : State) :
    store p h s = (.ok (), s.setMem p h) := rfl

theorem TrackHandle_apply (env : Env) (k : TableKind) (o : ObjId) (s : State) :
    TrackHandle env k o s = (.ok (freshHandle env (s.tables k)), s.tracked env k o) := rfl

@[simp] theorem factoryCalls_nil : factoryCalls [] = [] := rfl

@[simp] theorem factoryCalls_append (a b : List Event) :
    factoryCalls (a ++ b) = factoryCalls a ++ factoryCalls b := by
  simp [factoryCalls, List.filterMap_append]

@[simp] theorem factoryCalls_cons_factoryMethod (fm : FactoryMethod) (b : Bag)
    (a : Option ObjId) (evs : List Event) :
    factoryCalls (.factoryMethod fm b a :: evs) = (fm, b, a) :: factoryCalls evs := rfl

@[simp] theorem factoryCalls_cons_resolve (k : TableKind) (h : SPXHANDLE) (f : Option ObjId)
    (evs : List Event) : factoryCalls (.resolve k h f :: evs) = factoryCalls evs := rfl

@[simp] theorem factoryCalls_cons_createObject (c : String) (b : Bool) (evs : List Event) :
    factoryCalls (.createObject c b :: evs) = factoryCalls evs := rfl

@[simp] theorem factoryCalls_cons_copy (q : Option Bag) (evs : List Event) :
    factoryCalls (.copy q :: evs) = factoryCalls evs := rfl

@[simp] theorem factoryCalls_cons_track (k : TableKind) (o : ObjId) (h : SPXHANDLE)
    (evs : List Event) : factoryCalls (.track k o h :: evs) = factoryCalls evs := rfl

@[simp] theorem factoryCalls_cons_transcriberInit (a : Option ObjId) (evs : List Event) :
    factoryCalls (.transcriberInit a :: evs) = factoryCalls evs := rfl

@[simp] theorem factoryCalls_copyEvents (q : Option Bag) : factoryCalls (copyEvents q) = [] := by
  cases q <;> rfl

@[simp] theorem factoryCalls_resolveEvents (k : TableKind) (h : SPXHANDLE) (f : Option ObjId) :
    factoryCalls (resolveEvents k h f) = [] := by
  cases f <;> rfl

/-- The trace only grows along the cascade. -/
theorem cascade_trace (env : Env) (hs ha hl hau : SPXHANDLE) (fm : FactoryMethod) (s : State) :
    (cascade env hs ha hl hau fm s).2.trace
      = s.trace ++ newEvents s (cascade env hs ha hl hau fm s).2 := by
  unfold cascade
  cases env.canCreate "CSpxSpeechApiFactory"
  · simp
  · cases objectOf env s .speechConfig hs with
    | none => simp
    | some c =>
      simp only [if_true]
      split_ifs
      · simp
      · split <;> simp

/-- Writing to memory before the cascade or after it is the same. -/
theorem cascade_setMem (env : Env) (hs ha hl hau : SPXHANDLE) (fm : FactoryMethod) (s : State)
    (p : Loc) (v : SPXHANDLE) :
    cascade env hs ha hl hau fm (s.setMem p v)
      = ((cascade env hs ha hl hau fm s).1, (cascade env hs ha hl hau fm s).2.setMem p v) := by
  unfold cascade
  simp only [objectOf_setMem, sourceBag_setMem, State.setMem_heap, State.setMem_nextObj]
  cases env.canCreate "CSpxSpeechApiFactory"
  · rfl
  · cases objectOf env s .speechConfig hs with
    | none => rfl
    | some c =>
      simp only [if_true]
      split_ifs
      · rfl
      · split <;> rfl

/-- The invocations the cascade makes: one, on the merged bag, unless the factory
cannot be created, the base handle does not resolve, or the configuration
conflict is met. -/
theorem cascade_factoryCalls (env : Env) (hs ha hl hau : SPXHANDLE) (fm : FactoryMethod)
    (s : State) :
    factoryCalls (newEvents s (cascade env hs ha hl hau fm s).2)
      = if env.canCreate "CSpxSpeechApiFactory" = true
            ∧ (objectOf env s .speechConfig hs).isSome = true
            ∧ cascadeConflict env s hs ha = false then
          [(fm, mergedBag env s hs ha hl hau, objectOf env s .audioConfig hau)]
        else [] := by
  unfold cascade
  cases hc : env.canCreate "CSpxSpeechApiFactory"
  · simp
  · cases hb : objectOf env s .speechConfig hs with
    | none => simp
    | some c =>
      have hbase : sourceBag env s .speechConfig hs = (s.heap c).namedProperties := by
        simp [sourceBag, hb]
      simp only [cascadeConflict, hbase, mergedBag]
      cases hcf : ((sourceBag env s .autoDetectSourceLangConfig ha).isSome
          && definesEndpointId env (s.heap c).namedProperties)
      · simp only [Bool.false_eq_true, if_false, if_true, Option.isSome_some, and_self]
        split <;> simp
      · simp


/-! ## Lemmas: the operations built on the cascade -/

/-- The body shared by the operations that call create_from_config, in closed form. -/
theorem try_cascade_apply (env : Env) (p : Loc) (k : TableKind) (hs ha hl hau : SPXHANDLE)
    (fm : FactoryMethod) (s : State) :
    SPXAPI_TRY (store p env.SPXHANDLE_INVALID >>= fun _ =>
        create_from_config env hs ha hl hau fm >>= fun r =>
        TrackHandle env k r >>= fun h => store p h) s
      = match (cascade env hs ha hl hau fm s).1 with
        | .ok o =>
          (.returned .SPX_NOERROR,
            (((cascade env hs ha hl hau fm s).2.setMem p env.SPXHANDLE_INVALID).tracked env k o).setMem
              p (freshHandle env ((cascade env hs ha hl hau fm s).2.tables k)))
        | .error (.thrown f) =>
          (.returned (.failed f), (cascade env hs ha hl hau fm s).2.setMem p env.SPXHANDLE_INVALID)
        | .error .null_dereference =>
          (.undefined_behaviour,
            (cascade env hs ha hl hau fm s).2.setMem p env.SPXHANDLE_INVALID) := by
  simp only [SPXAPI_TRY, M.bind_apply, store_apply, create_from_config_eq, cascade_setMem,
    TrackHandle_apply]
  rcases cascade env hs ha hl hau fm s with ⟨r, s1⟩
  rcases r with e | o
  · cases e <;> rfl
  · rfl

theorem newEvents_tracked (s s1 : State) (env : Env) (k : TableKind) (o : ObjId)
    (h : s1.trace = s.trace ++ newEvents s s1) :
    newEvents s (s1.tracked env k o)
      = newEvents s s1 ++ [.track k o (freshHandle env (s1.tables k))] := by
  have : (s1.tracked env k o).trace
      = s.trace ++ (newEvents s s1 ++ [.track k o (freshHandle env (s1.tables k))]) := by
    rw [State.tracked_trace, ← List.append_assoc, ← h]
  unfold newEvents at this ⊢
  rw [this]
  simp

/-- The invocations of an operation built on the cascade are those of the cascade. -/
theorem try_cascade_factoryCalls (env : Env) (p : Loc) (k : TableKind)
    (hs ha hl hau : SPXHANDLE) (fm : FactoryMethod) (s : State) :
    factoryCalls (newEvents s (SPXAPI_TRY (store p env.SPXHANDLE_INVALID >>= fun _ =>
        create_from_config env hs ha hl hau fm >>= fun r =>
        TrackHandle env k r >>= fun h => store p h) s).2)
      = factoryCalls (newEvents s (cascade env hs ha hl hau fm s).2) := by
  rw [try_cascade_apply]
  have ht := cascade_trace env hs ha hl hau fm s
  rcases hcas : cascade env hs ha hl hau fm s with ⟨r, s1⟩
  rw [hcas] at ht
  rcases r with e | o
  · cases e <;> simp
  · simp only [newEvents_setMem]
    rw [newEvents_tracked s _ env k o (by simpa using ht)]
    simp

theorem objectOf_invalid (env : Env) (s : State) (k : TableKind) :
    objectOf env s k env.SPXHANDLE_INVALID = none := by
  simp [objectOf, Table.find]

theorem sourceBag_invalid (env : Env) (s : State) (k : TableKind) :
    sourceBag env s k env.SPXHANDLE_INVALID = none := by
  simp [sourceBag, objectOf_invalid]

/-- The merged bag is the bag the specification describes. -/
theorem mergedBag_eq_lastDefining (env : Env) (s : State) (hs ha hl hau : SPXHANDLE)
    (K : String) :
    mergedBag env s hs ha hl hau K = lastDefining (cascadeSources env s hs ha hl hau) K := by
  unfold mergedBag cascadeSources
  cases sourceBag env s .speechConfig hs <;> cases sourceBag env s .audioConfig hau <;>
    cases sourceBag env s .autoDetectSourceLangConfig ha <;>
    cases sourceBag env s .sourceLangConfig hl <;>
    simp only [mergeOpt, lastDefining, Bag.Copy, Bag.empty, Option.bind_none, Option.bind_some,
      Option.none_bind, Option.some_bind] <;>
    (repeat' split) <;> simp_all

/-! ## Lemmas: what the cascade leaves unchanged -/

theorem cascade_tables (env : Env) (hs ha hl hau : SPXHANDLE) (fm : FactoryMethod) (s : State) :
    (cascade env hs ha hl hau fm s).2.tables = s.tables := by
  unfold cascade
  cases env.canCreate "CSpxSpeechApiFactory"
  · rfl
  · cases objectOf env s .speechConfig hs with
    | none => rfl
    | some c =>
      simp only [if_true]
      split_ifs
      · rfl
      · split <;> rfl

theorem cascade_mem (env : Env) (hs ha hl hau : SPXHANDLE) (fm : FactoryMethod) (s : State) :
    (cascade env hs ha hl hau fm s).2.mem = s.mem := by
  rw [← create_from_config_eq]
  exact KeepsMem_create_from_config env hs ha hl hau fm s

/-- The cascade under the configuration conflict. -/
theorem cascade_conflict (env : Env) (hs ha hl hau : SPXHANDLE) (fm : FactoryMethod) (s : State)
    (hb : (objectOf env s .speechConfig hs).isSome = true)
    (hcf : cascadeConflict env s hs ha = true) :
    (cascade env hs ha hl hau fm s).1
      = .error (.thrown (if env.canCreate "CSpxSpeechApiFactory" = true
          then .invalid_argument_exception else .runtime_error)) := by
  unfold cascade
  cases env.canCreate "CSpxSpeechApiFactory"
  · rfl
  · cases hobj : objectOf env s .speechConfig hs with
    | none => simp [hobj] at hb
    | some c =>
      have hbase : sourceBag env s .speechConfig hs = (s.heap c).namedProperties := by
        simp [sourceBag, hobj]
      simp only [cascadeConflict, hbase] at hcf
      simp [hcf]

theorem is_handle_valid_of_sourceBag (env : Env) (s : State) (k : TableKind) (h : SPXHANDLE)
    (b : Bag) (hb : sourceBag env s k h = some b) : is_handle_valid env s k h = true := by
  cases hobj : objectOf env s k h with
  | none => simp [sourceBag, hobj] at hb
  | some c => simpa [is_handle_valid, objectOf] using congrArg Option.isSome hobj

theorem objectOf_isSome_of_valid (env : Env) (s : State) (k : TableKind) (h : SPXHANDLE)
    (hv : is_handle_valid env s k h = true) : (objectOf env s k h).isSome = true := by
  simpa [is_handle_valid, objectOf] using hv

/-! ## Lemmas: the operations with a cascade of their own -/

theorem Bag.empty_Copy (b : Bag) : Bag.empty.Copy b = b := by
  funext k
  simp only [Bag.Copy, Bag.empty]
  cases b k <;> rfl

theorem newEvents_of_trace (s s1 : State) (evs : List Event) (h : s1.trace = s.trace ++ evs) :
    newEvents s s1 = evs := by
  simp [newEvents, h]

/-- The invocations of the synthesizer operation on a base config with a bag. -/
theorem synthesizer_factoryCalls (env : Env) (p : Loc) (hs hau : SPXHANDLE) (s : State)
    (b : Bag) (hb : sourceBag env s .speechConfig hs = some b) :
    factoryCalls (newEvents s
        (synthesizer_create_speech_synthesizer_from_config env (some p) hs hau s).2)
      = if env.canCreate "CSpxSpeechSynthesisApiFactory" = true then
          [(.CreateSpeechSynthesizerFromConfig, b, objectOf env s .audioConfig hau)]
        else [] := by
  have hv : speech_config_is_handle_valid env s hs = true :=
    is_handle_valid_of_sourceBag env s _ hs b hb
  cases hobj : objectOf env s .speechConfig hs with
  | none => simp [sourceBag, hobj] at hb
  | some c =>
    have hbag : (s.heap c).namedProperties = some b := by
      simpa [sourceBag, hobj] using hb
    cases hc : env.canCreate "CSpxSpeechSynthesisApiFactory"
    · simp [synthesizer_create_speech_synthesizer_from_config, hv, SPXAPI_TRY, store_apply,
        resolve_apply, hobj, hbag, SpxCreateObjectWithSite, hc, SPX_IFTRUE_THROW_HR, newEvents]
    · simp [synthesizer_create_speech_synthesizer_from_config, hv, SPXAPI_TRY, store_apply,
        resolve_apply, hobj, hbag, SpxCreateObjectWithSite, hc, SPX_IFTRUE_THROW_HR,
        Copy_some, AudioConfigFromHandleOrEmptyIfInvalid_apply, invoke_some, TrackHandle_apply,
        Bag.empty_Copy]
      cases env.construct .CreateSpeechSynthesizerFromConfig b
        (Option.map s.heap (objectOf env s .audioConfig hau)) <;> simp [newEvents]

/-- The invocations of the translation operation on a base config with a bag. -/
theorem translation_factoryCalls (env : Env) (p : Loc) (hs hau : SPXHANDLE) (s : State)
    (b : Bag) (hb : sourceBag env s .speechConfig hs = some b) :
    factoryCalls (newEvents s
        (recognizer_create_translation_recognizer_from_config env (some p) hs hau s).2)
      = if env.canCreate "CSpxSpeechApiFactory" = true then
          [(.CreateTranslationRecognizerFromConfig,
            mergeOpt b (sourceBag env s .audioConfig hau), objectOf env s .audioConfig hau)]
        else [] := by
  have hv : speech_config_is_handle_valid env s hs = true :=
    is_handle_valid_of_sourceBag env s _ hs b hb
  cases hobj : objectOf env s .speechConfig hs with
  | none => simp [sourceBag, hobj] at hb
  | some c =>
    have hbag : (s.heap c).namedProperties = some b := by
      simpa [sourceBag, hobj] using hb
    cases hc : env.canCreate "CSpxSpeechApiFactory"
    · simp [recognizer_create_translation_recognizer_from_config, hv, SPXAPI_TRY, store_apply,
        resolve_apply, hobj, hbag, SpxCreateObjectWithSite, hc, Copy, newEvents]
    · simp [recognizer_create_translation_recognizer_from_config, hv, SPXAPI_TRY, store_apply,
        resolve_apply, hobj, hbag, SpxCreateObjectWithSite, hc,
        Copy_some, AudioConfigFromHandleOrEmptyIfInvalid_apply, invoke_some, TrackHandle_apply,
        Bag.empty_Copy, copy_step, sourceBag_def]
      cases env.construct .CreateTranslationRecognizerFromConfig
        (mergeOpt b (sourceBag env s .audioConfig hau))
        (Option.map s.heap (objectOf env s .audioConfig hau)) <;> simp [newEvents]

/-- The invocations of the conversation operation on a base config with a bag. -/
theorem conversation_factoryCalls (env : Env) (p : Loc) (hs : SPXHANDLE) (id : String)
    (s : State) (b : Bag) (hb : sourceBag env s .speechConfig hs = some b) :
    factoryCalls (newEvents s (conversation_create_from_config env (some p) hs (some id) s).2)
      = if env.canCreate "CSpxSpeechApiFactory" = true then
          [(.CreateConversationFromConfig id, b, none)]
        else [] := by
  have hv : speech_config_is_handle_valid env s hs = true :=
    is_handle_valid_of_sourceBag env s _ hs b hb
  cases hobj : objectOf env s .speechConfig hs with
  | none => simp [sourceBag, hobj] at hb
  | some c =>
    have hbag : (s.heap c).namedProperties = some b := by
      simpa [sourceBag, hobj] using hb
    cases hc : env.canCreate "CSpxSpeechApiFactory"
    · simp [conversation_create_from_config, hv, SPXAPI_TRY, store_apply,
        resolve_apply, hobj, hbag, SpxCreateObjectWithSite, hc, SPX_IFTRUE_THROW_HR, newEvents]
    · simp [conversation_create_from_config, hv, SPXAPI_TRY, store_apply,
        resolve_apply, hobj, hbag, SpxCreateObjectWithSite, hc, SPX_IFTRUE_THROW_HR,
        Copy_some, invoke_some, TrackHandle_apply, Bag.empty_Copy]
      cases env.construct (.CreateConversationFromConfig id) b none <;> simp [newEvents]

/-- The tail shared by the operations that call create_from_config. -/
theorem cascade_tail_apply (env : Env) (p : Loc) (k : TableKind) (hs ha hl hau : SPXHANDLE)
    (fm : FactoryMethod) (s : State) :
    (create_from_config env hs ha hl hau fm >>= fun r =>
        TrackHandle env k r >>= fun h => store p h) s
      = match cascade env hs ha hl hau fm s with
        | (.ok o, s2) => (.ok (), (s2.tracked env k o).setMem p (freshHandle env (s2.tables k)))
        | (.error e, s2) => (.error e, s2) := by
  simp only [M.bind_apply, create_from_config_eq, TrackHandle_apply, store_apply]
  rcases cascade env hs ha hl hau fm s with ⟨r, s2⟩
  cases r <;> rfl

/-- The dialog service connector operation from its entry into the cascade. -/
theorem dialog_apply (env : Env) (p : Loc) (hs hau : SPXHANDLE) (s : State) (c : ObjId)
    (b : Bag) (hobj : objectOf env s .speechConfig hs = some c)
    (hbag : (s.heap c).namedProperties = some b) :
    dialog_service_connector_create_dialog_service_connector_from_config env (some p) hs hau s
      = match cascade env hs env.SPXHANDLE_INVALID env.SPXHANDLE_INVALID hau
            .CreateDialogServiceConnectorFromConfig (dialogPrepared env s p hs c b) with
        | (.ok o, s2) =>
          (.returned .SPX_NOERROR,
            (s2.tracked env .dialogServiceConnector o).setMem p
              (freshHandle env (s2.tables .dialogServiceConnector)))
        | (.error (.thrown f), s2) => (.returned (.failed f), s2)
        | (.error .null_dereference, s2) => (.undefined_behaviour, s2) := by
  have hv : speech_config_is_handle_valid env s hs = true := by
    simpa [speech_config_is_handle_valid, is_handle_valid, objectOf] using
      congrArg Option.isSome hobj
  have hstep : ∀ s1 : State,
      (create_from_config env hs env.SPXHANDLE_INVALID env.SPXHANDLE_INVALID hau
          .CreateDialogServiceConnectorFromConfig >>= fun r =>
        TrackHandle env .dialogServiceConnector r >>= fun h => store p h) s1
      = match cascade env hs env.SPXHANDLE_INVALID env.SPXHANDLE_INVALID hau
            .CreateDialogServiceConnectorFromConfig s1 with
        | (.ok o, s2) =>
          (.ok (), (s2.tracked env .dialogServiceConnector o).setMem p
            (freshHandle env (s2.tables .dialogServiceConnector)))
        | (.error e, s2) => (.error e, s2) := fun s1 => cascade_tail_apply _ _ _ _ _ _ _ _ s1
  unfold dialog_service_connector_create_dialog_service_connector_from_config
  simp only [hv, Bool.not_true, Bool.false_eq_true, if_false, SPXAPI_TRY]
  rw [M.bind_apply, store_apply]
  simp only []
  rw [M.bind_apply, resolve_apply]
  simp only [objectOf_setMem, hobj]
  rw [M.bind_apply, query_props_apply]
  simp only [Option.some_bind, State.log_heap, State.setMem_heap, hbag]
  rw [M.bind_apply, deref_some]
  simp only []
  rw [M.bind_apply]
  simp only [setNamedProperties]
  rw [hstep]
  have : ({ (s.setMem p env.SPXHANDLE_INVALID).log [.resolve .speechConfig hs (some c)] with
      heap := Function.update s.heap c
        { s.heap c with namedProperties := some (b.SetStringValue env.keywordVerificationName
            (b.GetStringValue env.keywordVerificationName "true")) } } : State)
      = dialogPrepared env s p hs c b := rfl
  simp only [State.log_heap, State.setMem_heap, this]
  rcases cascade env hs env.SPXHANDLE_INVALID env.SPXHANDLE_INVALID hau
      .CreateDialogServiceConnectorFromConfig (dialogPrepared env s p hs c b) with ⟨r, s2⟩
  rcases r with e | o
  · cases e <;> rfl
  · rfl

/-! ## Lemmas: the events of the operations built on the cascade -/

theorem try_cascade_newEvents (env : Env) (p : Loc) (k : TableKind) (hs ha hl hau : SPXHANDLE)
    (fm : FactoryMethod) (s : State) :
    newEvents s (SPXAPI_TRY (store p env.SPXHANDLE_INVALID >>= fun _ =>
        create_from_config env hs ha hl hau fm >>= fun r =>
        TrackHandle env k r >>= fun h => store p h) s).2
      = newEvents s (cascade env hs ha hl hau fm s).2
        ++ (match (cascade env hs ha hl hau fm s).1 with
            | .ok o => [.track k o (freshHandle env (s.tables k))]
            | .error _ => []) := by
  rw [try_cascade_apply]
  have ht := cascade_trace env hs ha hl hau fm s
  have htab := cascade_tables env hs ha hl hau fm s
  rcases hcas : cascade env hs ha hl hau fm s with ⟨r, s1⟩
  rw [hcas] at ht htab
  simp only at ht htab
  rcases r with e | o
  · cases e <;> simp
  · simp only [newEvents_setMem]
    rw [newEvents_tracked s _ env k o (by simpa using ht)]
    simp [htab]

theorem filter_copyEvents (k : TableKind) (q : Option Bag) :
    (copyEvents q).filter (Event.isResolveIn k) = [] := by
  cases q <;> rfl

theorem filter_resolveEvents_ne (k k1 : TableKind) (h : SPXHANDLE) (f : Option ObjId)
    (hk : k1 ≠ k) : (resolveEvents k1 h f).filter (Event.isResolveIn k) = [] := by
  cases f <;> simp [resolveEvents, Event.isResolveIn, hk]

theorem resolveEvents_none (k : TableKind) (h : SPXHANDLE) : resolveEvents k h none = [] := rfl

/-- The cascade looks up no audio handle when the audio handle is not valid. -/
theorem cascade_no_audio_resolve (env : Env) (hs ha hl hau : SPXHANDLE) (fm : FactoryMethod)
    (s : State) (hnone : objectOf env s .audioConfig hau = none) :
    (newEvents s (cascade env hs ha hl hau fm s).2).filter (Event.isResolveIn .audioConfig)
      = [] := by
  have h1 : ∀ h f, (resolveEvents .autoDetectSourceLangConfig h f).filter
      (Event.isResolveIn .audioConfig) = [] :=
    fun h f => filter_resolveEvents_ne _ _ h f (by decide)
  have h2 : ∀ h f, (resolveEvents .sourceLangConfig h f).filter
      (Event.isResolveIn .audioConfig) = [] :=
    fun h f => filter_resolveEvents_ne _ _ h f (by decide)
  unfold cascade
  cases env.canCreate "CSpxSpeechApiFactory"
  · simp [Event.isResolveIn]
  · cases objectOf env s .speechConfig hs with
    | none => simp [Event.isResolveIn]
    | some c =>
      simp only [if_true, hnone, resolveEvents_none]
      split_ifs
      · simp only [newEvents_log, List.filter_append, filter_copyEvents, h1, List.append_nil]
        simp [Event.isResolveIn]
      · split <;>
        · simp only [newEvents_log, newEvents_withNew, List.filter_append, filter_copyEvents,
            h1, h2, List.append_nil]
          simp [Event.isResolveIn]

/-- The cascade does not depend on an audio handle that is not valid. -/
theorem cascade_invalid_audio (env : Env) (hs ha hl hau : SPXHANDLE) (fm : FactoryMethod)
    (s : State) (hnone : objectOf env s .audioConfig hau = none) :
    cascade env hs ha hl hau fm s = cascade env hs ha hl env.SPXHANDLE_INVALID fm s := by
  unfold cascade
  simp only [sourceBag, hnone, objectOf_invalid, resolveEvents]

/-- The cascade ends normally when nothing on its way fails. -/
theorem cascade_ok (env : Env) (hs ha hl hau : SPXHANDLE) (fm : FactoryMethod) (s : State)
    (obj : Obj)
    (hc : env.canCreate "CSpxSpeechApiFactory" = true)
    (hb : (objectOf env s .speechConfig hs).isSome = true)
    (hcf : cascadeConflict env s hs ha = false)
    (hobj : env.construct fm (mergedBag env s hs ha hl hau)
      ((objectOf env s .audioConfig hau).map s.heap) = .ok obj) :
    (cascade env hs ha hl hau fm s).1 = .ok s.nextObj := by
  unfold cascade
  cases hbase : objectOf env s .speechConfig hs with
  | none => simp [hbase] at hb
  | some c =>
    have hsb : sourceBag env s .speechConfig hs = (s.heap c).namedProperties := by
      simp [sourceBag, hbase]
    simp only [cascadeConflict, hsb] at hcf
    simp only [mergedBag, hsb] at hobj
    simp [hc, hcf, hobj]

/-! ## Lemmas: the heap along the cascade -/

/-- The cascade changes no object that is already on the heap: the only object
it writes is the new one. -/
theorem cascade_heap (env : Env) (hs ha hl hau : SPXHANDLE) (fm : FactoryMethod) (s : State)
    (i : ObjId) (hi : i ≠ s.nextObj) :
    (cascade env hs ha hl hau fm s).2.heap i = s.heap i := by
  unfold cascade
  cases env.canCreate "CSpxSpeechApiFactory"
  · rfl
  · cases objectOf env s .speechConfig hs with
    | none => rfl
    | some c =>
      simp only [if_true]
      split_ifs
      · rfl
      · split
        · simp [State.withNew, Function.update_noteq hi]
        · rfl

/-- The heap after the dialog service connector operation is the heap after
the cascade it enters. -/
theorem dialog_heap (env : Env) (p : Loc) (hs hau : SPXHANDLE) (s : State) (c : ObjId)
    (b : Bag) (hobj : objectOf env s .speechConfig hs = some c)
    (hbag : (s.heap c).namedProperties = some b) :
    (dialog_service_connector_create_dialog_service_connector_from_config env (some p)
        hs hau s).2.heap
      = (cascade env hs env.SPXHANDLE_INVALID env.SPXHANDLE_INVALID hau
          .CreateDialogServiceConnectorFromConfig (dialogPrepared env s p hs c b)).2.heap := by
  rw [dialog_apply env p hs hau s c b hobj hbag]
  rcases cascade env hs env.SPXHANDLE_INVALID env.SPXHANDLE_INVALID hau
      .CreateDialogServiceConnectorFromConfig (dialogPrepared env s p hs c b) with ⟨r, s2⟩
  rcases r with e | o
  · cases e <;> rfl
  · rfl
/-! ## C1: the output location -/

/-- C2: create_from_config merges the bags of the base speech config, the audio
config, the auto-detect-source-language config and the source-language config in
this order, later sources overriding earlier ones: whenever the factory method
is invoked, the bag the factory holds gives every key K the value K has in the
last of the four sources that is supplied, carries a bag and defines K; the
method is invoked (once) whenever the factory can be created, the base handle is
valid and there is no configuration conflict.  In particular, when the bag of
the audio config maps K to V and the bag of the base config also defines K,
recognizer_create_speech_recognizer_from_config invokes the factory method on a
bag that maps K to V. -/
theorem C2_merge_order (env : Env) (hs ha hl hau : SPXHANDLE) (fm : FactoryMethod) (s : State) :
    (∀ call ∈ factoryCalls (newEvents s (create_from_config env hs ha hl hau fm s).2),
      ∀ K, call.2.1 K = lastDefining (cascadeSources env s hs ha hl hau) K) ∧
    (env.canCreate "CSpxSpeechApiFactory" = true →
      (objectOf env s .speechConfig hs).isSome = true →
      cascadeConflict env s hs ha = false →
      ∃ B, factoryCalls (newEvents s (create_from_config env hs ha hl hau fm s).2)
        = [(fm, B, objectOf env s .audioConfig hau)]) ∧
    (∀ (p : Loc) (b0 b : Bag) (K V : String),
      env.canCreate "CSpxSpeechApiFactory" = true →
      sourceBag env s .speechConfig hs = some b0 → (b0 K).isSome = true →
      sourceBag env s .audioConfig hau = some b → b K = some V →
      ∃ B, factoryCalls (newEvents s
          (recognizer_create_speech_recognizer_from_config env (some p) hs hau s).2)
        = [(.CreateSpeechRecognizerFromConfig, B, objectOf env s .audioConfig hau)]
        ∧ B K = some V) := by
  refine ⟨?_, ?_, ?_⟩
  · intro call hcall K
    rw [create_from_config_eq, cascade_factoryCalls] at hcall
    split_ifs at hcall
    · simp only [List.mem_singleton] at hcall
      subst hcall
      exact mergedBag_eq_lastDefining env s hs ha hl hau K
    · simp at hcall
  · intro hc hb hcf
    rw [create_from_config_eq, cascade_factoryCalls]
    exact ⟨mergedBag env s hs ha hl hau, by simp [hc, hb, hcf]⟩
  · intro p b0 b K V hc hb0 _ hb hKV
    have hvalid : speech_config_is_handle_valid env s hs = true := by
      cases hobj : objectOf env s .speechConfig hs with
      | none => simp [sourceBag, hobj] at hb0
      | some c => simpa [speech_config_is_handle_valid, is_handle_valid, objectOf] using
          congrArg Option.isSome hobj
    have hobj : (objectOf env s .speechConfig hs).isSome = true := by
      simpa [speech_config_is_handle_valid, is_handle_valid, objectOf] using hvalid
    have hrun : recognizer_create_speech_recognizer_from_config env (some p) hs hau s
        = SPXAPI_TRY (store p env.SPXHANDLE_INVALID >>= fun _ =>
            create_from_config env hs env.SPXHANDLE_INVALID env.SPXHANDLE_INVALID hau
              .CreateSpeechRecognizerFromConfig >>= fun r =>
            TrackHandle env .recognizer r >>= fun h => store p h) s := by
      simp only [recognizer_create_speech_recognizer_from_config, hvalid]
      rfl
    rw [hrun, try_cascade_factoryCalls, cascade_factoryCalls]
    refine ⟨mergedBag env s hs env.SPXHANDLE_INVALID env.SPXHANDLE_INVALID hau,
      by simp [hc, hobj, cascadeConflict, sourceBag_invalid], ?_⟩
    simp [mergedBag, sourceBag_invalid, hb0, hb, mergeOpt, Bag.Copy, hKV]

/-- C2 at a base config and an audio config that both define the key k. -/
theorem C2_merge_order_witness :
    ∃ B, factoryCalls (newEvents st2
        (recognizer_create_speech_recognizer_from_config env0 (some 5) 10 20 st2).2)
      = [(.CreateSpeechRecognizerFromConfig, B, objectOf env0 st2 .audioConfig 20)]
      ∧ B "k" = some "audio" :=
  (C2_merge_order env0 10 env0.SPXHANDLE_INVALID env0.SPXHANDLE_INVALID 20
    .CreateSpeechRecognizerFromConfig st2).2.2 5
    ((Bag.single "k" "base").SetStringValue "other" "o") (Bag.single "k" "audio") "k" "audio"
    rfl rfl (by decide) rfl (by decide)

/-! ## C3: the endpoint id and the auto-detect config -/

/-- C3 as stated fails: the base config's bag defines the endpoint id and a
valid auto-detect-source-language handle is supplied, but its object carries no
property bag; the conflict check is skipped, the factory method is invoked and
the call succeeds. -/
theorem C3_counterexample :
    definesEndpointId env0 (sourceBag env0 st3 .speechConfig 10) = true ∧
    auto_detect_source_lang_config_is_handle_valid env0 st3 30 = true ∧
    (recognizer_create_speech_recognizer_from_auto_detect_source_lang_config env0 (some 5)
        10 30 env0.SPXHANDLE_INVALID st3).1 = .returned .SPX_NOERROR ∧
    (factoryCalls (newEvents st3
      (recognizer_create_speech_recognizer_from_auto_detect_source_lang_config env0 (some 5)
        10 30 env0.SPXHANDLE_INVALID st3).2)).length = 1 := by
  decide

/-- C3 (amended): when the base speech config's bag defines the endpoint id and
the auto-detect-source-language handle is valid and its object carries a
property bag, recognizer_create_speech_recognizer_from_auto_detect_source_lang_config
called with a non-null output pointer fails: it returns the status of the
invalid-argument exception when the factory could be created (and
SPXERR_RUNTIME_ERROR when it could not), the factory method is not invoked, no
handle table changes, and the output location holds SPXHANDLE_INVALID. -/
theorem C3_endpoint_conflict (env : Env) (p : Loc) (hs hd hau : SPXHANDLE) (s : State)
    (b0 bd : Bag)
    (hb0 : sourceBag env s .speechConfig hs = some b0)
    (hep : b0.HasStringValue env.endpointIdName = true)
    (hbd : sourceBag env s .autoDetectSourceLangConfig hd = some bd) :
    (recognizer_create_speech_recognizer_from_auto_detect_source_lang_config env (some p)
        hs hd hau s).1
      = .returned (.failed (if env.canCreate "CSpxSpeechApiFactory" = true
          then .invalid_argument_exception else .runtime_error)) ∧
    (env.canCreate "CSpxSpeechApiFactory" = true →
      ∃ hr, (recognizer_create_speech_recognizer_from_auto_detect_source_lang_config env (some p)
        hs hd hau s).1 = .returned hr ∧ hr.isInvalidArgumentClass = true) ∧
    factoryCalls (newEvents s
      (recognizer_create_speech_recognizer_from_auto_detect_source_lang_config env (some p)
        hs hd hau s).2) = [] ∧
    (recognizer_create_speech_recognizer_from_auto_detect_source_lang_config env (some p)
        hs hd hau s).2.tables = s.tables ∧
    (recognizer_create_speech_recognizer_from_auto_detect_source_lang_config env (some p)
        hs hd hau s).2.mem p = env.SPXHANDLE_INVALID := by
  have hv1 : speech_config_is_handle_valid env s hs = true :=
    is_handle_valid_of_sourceBag env s _ hs b0 hb0
  have hv2 : auto_detect_source_lang_config_is_handle_valid env s hd = true :=
    is_handle_valid_of_sourceBag env s _ hd bd hbd
  have hobj := objectOf_isSome_of_valid env s _ hs hv1
  have hcf : cascadeConflict env s hs hd = true := by
    simp [cascadeConflict, hbd, hb0, definesEndpointId, hep]
  have hrun : recognizer_create_speech_recognizer_from_auto_detect_source_lang_config env
        (some p) hs hd hau s
      = SPXAPI_TRY (store p env.SPXHANDLE_INVALID >>= fun _ =>
          create_from_config env hs hd env.SPXHANDLE_INVALID hau
            .CreateSpeechRecognizerFromConfig >>= fun r =>
          TrackHandle env .recognizer r >>= fun h => store p h) s := by
    simp only [recognizer_create_speech_recognizer_from_auto_detect_source_lang_config, hv1, hv2]
    rfl
  have hcalls := try_cascade_factoryCalls env p .recognizer hs hd env.SPXHANDLE_INVALID hau
    .CreateSpeechRecognizerFromConfig s
  rw [← hrun, cascade_factoryCalls] at hcalls
  have hres := cascade_conflict env hs hd env.SPXHANDLE_INVALID hau
    .CreateSpeechRecognizerFromConfig s hobj hcf
  have hfinal : recognizer_create_speech_recognizer_from_auto_detect_source_lang_config env
        (some p) hs hd hau s
      = (.returned (.failed (if env.canCreate "CSpxSpeechApiFactory" = true
            then .invalid_argument_exception else .runtime_error)),
          (cascade env hs hd env.SPXHANDLE_INVALID hau
            .CreateSpeechRecognizerFromConfig s).2.setMem p env.SPXHANDLE_INVALID) := by
    rw [hrun, try_cascade_apply, hres]
  refine ⟨by rw [hfinal], ?_, ?_, ?_, ?_⟩
  · intro hc
    exact ⟨_, by rw [hfinal], by simp [hc, SPXHR.isInvalidArgumentClass]⟩
  · rw [hcalls]
    simp [hcf]
  · rw [hfinal]
    simp [cascade_tables]
  · rw [hfinal]
    simp

/-- C3 (amended) at an auto-detect config that carries a bag. -/
theorem C3_endpoint_conflict_witness :
    (recognizer_create_speech_recognizer_from_auto_detect_source_lang_config env0 (some 5)
        10 31 env0.SPXHANDLE_INVALID st3).1
      = .returned (.failed .invalid_argument_exception) ∧
    (recognizer_create_speech_recognizer_from_auto_detect_source_lang_config env0 (some 5)
        10 31 env0.SPXHANDLE_INVALID st3).2.mem 5 = env0.SPXHANDLE_INVALID :=
  ⟨(C3_endpoint_conflict env0 5 10 31 env0.SPXHANDLE_INVALID st3 bagWithEndpoint
      (Bag.single "languages" "en-US,de-DE") rfl (by decide) rfl).1,
   (C3_endpoint_conflict env0 5 10 31 env0.SPXHANDLE_INVALID st3 bagWithEndpoint
      (Bag.single "languages" "en-US,de-DE") rfl (by decide) rfl).2.2.2.2⟩

/-! ## C4: the base config alone -/

theorem mergedBag_base_only (env : Env) (s : State) (hs : SPXHANDLE) (b : Bag)
    (hb : sourceBag env s .speechConfig hs = some b) :
    mergedBag env s hs env.SPXHANDLE_INVALID env.SPXHANDLE_INVALID env.SPXHANDLE_INVALID = b := by
  simp [mergedBag, sourceBag_invalid, hb, mergeOpt, Bag.empty_Copy]

theorem base_only_cascade_calls (env : Env) (p : Loc) (k : TableKind) (hs : SPXHANDLE)
    (fm : FactoryMethod) (s : State) (b : Bag)
    (hb : sourceBag env s .speechConfig hs = some b) :
    factoryCalls (newEvents s (SPXAPI_TRY (store p env.SPXHANDLE_INVALID >>= fun _ =>
        create_from_config env hs env.SPXHANDLE_INVALID env.SPXHANDLE_INVALID
          env.SPXHANDLE_INVALID fm >>= fun r =>
        TrackHandle env k r >>= fun h => store p h) s).2)
      = if env.canCreate "CSpxSpeechApiFactory" = true then [(fm, b, none)] else [] := by
  have hobj := objectOf_isSome_of_valid env s _ hs (is_handle_valid_of_sourceBag env s _ hs b hb)
  rw [try_cascade_factoryCalls, cascade_factoryCalls, mergedBag_base_only env s hs b hb]
  simp [hobj, cascadeConflict, sourceBag_invalid, objectOf_invalid]

theorem objectOf_dialogPrepared (env : Env) (s : State) (p : Loc) (hs : SPXHANDLE) (c : ObjId)
    (b : Bag) (k : TableKind) (h : SPXHANDLE) :
    objectOf env (dialogPrepared env s p hs c b) k h = objectOf env s k h := rfl

theorem sourceBag_dialogPrepared (env : Env) (s : State) (p : Loc) (hs : SPXHANDLE) (c : ObjId)
    (b : Bag) (hobj : objectOf env s .speechConfig hs = some c) :
    sourceBag env (dialogPrepared env s p hs c b) .speechConfig hs
      = some (withKeywordVerification env b) := by
  unfold sourceBag
  rw [objectOf_dialogPrepared, hobj]
  simp [dialogPrepared, State.withBag]

/-- The invocations of the dialog service connector operation are those of the
cascade it enters. -/
theorem dialog_factoryCalls (env : Env) (p : Loc) (hs hau : SPXHANDLE) (s : State) (c : ObjId)
    (b : Bag) (hobj : objectOf env s .speechConfig hs = some c)
    (hbag : (s.heap c).namedProperties = some b) :
    factoryCalls (newEvents s
      (dialog_service_connector_create_dialog_service_connector_from_config env (some p)
        hs hau s).2)
      = factoryCalls (newEvents (dialogPrepared env s p hs c b)
          (cascade env hs env.SPXHANDLE_INVALID env.SPXHANDLE_INVALID hau
            .CreateDialogServiceConnectorFromConfig (dialogPrepared env s p hs c b)).2) := by
  rw [dialog_apply env p hs hau s c b hobj hbag]
  have ht := cascade_trace env hs env.SPXHANDLE_INVALID env.SPXHANDLE_INVALID hau
    .CreateDialogServiceConnectorFromConfig (dialogPrepared env s p hs c b)
  have h1 : (dialogPrepared env s p hs c b).trace
      = s.trace ++ [.resolve .speechConfig hs (some c)] := rfl
  rcases hcas : cascade env hs env.SPXHANDLE_INVALID env.SPXHANDLE_INVALID hau
      .CreateDialogServiceConnectorFromConfig (dialogPrepared env s p hs c b) with ⟨r, s2⟩
  rw [hcas] at ht
  simp only at ht
  rcases r with e | o
  · have : newEvents s s2 = [.resolve .speechConfig hs (some c)]
        ++ newEvents (dialogPrepared env s p hs c b) s2 :=
      newEvents_of_trace s s2 _ (by rw [ht, h1, List.append_assoc])
    cases e <;> simp [this]
  · have : newEvents s ((s2.tracked env .dialogServiceConnector o).setMem p
          (freshHandle env (s2.tables .dialogServiceConnector)))
        = [.resolve .speechConfig hs (some c)]
          ++ newEvents (dialogPrepared env s p hs c b) s2
          ++ [.track .dialogServiceConnector o
                (freshHandle env (s2.tables .dialogServiceConnector))] :=
      newEvents_of_trace s _ _ (by
        rw [State.setMem_trace, State.tracked_trace, ht, h1]
        simp)
    simp [this]

/-- C4 as stated fails: dialog_service_connector_create_dialog_service_connector_from_config
called with a valid base config whose bag is empty and no audio config constructs
the connector from a factory bag that defines KeywordConfig_EnableKeywordVerification,
a key the base config's bag did not have when the call was made. -/
theorem C4_counterexample :
    (sourceBag env0 st4 .speechConfig 10).map (fun b => b env0.keywordVerificationName)
      = some none ∧
    (factoryCalls (newEvents st4
      (dialog_service_connector_create_dialog_service_connector_from_config env0 (some 5)
        10 env0.SPXHANDLE_INVALID st4).2)).map (fun c => c.2.1 env0.keywordVerificationName)
      = [some "true"] := by
  decide

/-- C4 (amended): for every creation operation that takes a base speech-config
handle, called with a valid base handle whose object carries a bag and with every
auxiliary handle equal to SPXHANDLE_INVALID, the bag the factory holds when the
factory method is invoked is, for every operation but the dialog service
connector, exactly the bag the base config had when the call was made; for the
dialog service connector it is that bag with KeywordConfig_EnableKeywordVerification
set to its previous value, or to true when the bag did not define it.  The method
is invoked once when the argument checks pass and the factory can be created. -/
theorem C4_base_only (env : Env) (call : CreationCall) (s : State) (h : SPXHANDLE) (b : Bag)
    (hbase : call.base = some h)
    (haux : ∀ a ∈ call.auxiliary, a = env.SPXHANDLE_INVALID)
    (hb : sourceBag env s .speechConfig h = some b) :
    (∀ c ∈ factoryCalls (newEvents s (call.run env s).2),
      c.2.1 = if call.isDialog = true then withKeywordVerification env b else b) ∧
    (call.out.isSome = true → call.argumentsPass env s = true →
      env.canCreate call.factoryClass = true →
      (factoryCalls (newEvents s (call.run env s).2)).length = 1) := by
  have hv : speech_config_is_handle_valid env s h = true :=
    is_handle_valid_of_sourceBag env s _ h b hb
  have hinv : ∀ k, is_handle_valid env s k env.SPXHANDLE_INVALID = false := by
    intro k
    simp [is_handle_valid, Table.find]
  cases call with
  | speech_recognizer q h1 a =>
    simp only [CreationCall.base, Option.some.injEq] at hbase
    subst hbase
    have ha : a = env.SPXHANDLE_INVALID := haux a (by simp [CreationCall.auxiliary])
    subst ha
    cases q with
    | none => simp [CreationCall.run, recognizer_create_speech_recognizer_from_config,
        CreationCall.out]
    | some p =>
      have hrun : (CreationCall.speech_recognizer (some p) h1 env.SPXHANDLE_INVALID).run env s
          = SPXAPI_TRY (store p env.SPXHANDLE_INVALID >>= fun _ =>
              create_from_config env h1 env.SPXHANDLE_INVALID env.SPXHANDLE_INVALID
                env.SPXHANDLE_INVALID .CreateSpeechRecognizerFromConfig >>= fun r =>
              TrackHandle env .recognizer r >>= fun h => store p h) s := by
        simp only [CreationCall.run, recognizer_create_speech_recognizer_from_config, hv]
        rfl
      rw [hrun, base_only_cascade_calls env p _ h1 _ s b hb]
      constructor
      · intro c hc
        split_ifs at hc <;> simp_all [CreationCall.isDialog]
      · intro _ _ hcc
        simp only [CreationCall.factoryClass] at hcc
        simp [hcc]
  | intent_recognizer q h1 a =>
    simp only [CreationCall.base, Option.some.injEq] at hbase
    subst hbase
    have ha : a = env.SPXHANDLE_INVALID := haux a (by simp [CreationCall.auxiliary])
    subst ha
    cases q with
    | none => simp [CreationCall.run, recognizer_create_intent_recognizer_from_config,
        CreationCall.out]
    | some p =>
      have hrun : (CreationCall.intent_recognizer (some p) h1 env.SPXHANDLE_INVALID).run env s
          = SPXAPI_TRY (store p env.SPXHANDLE_INVALID >>= fun _ =>
              create_from_config env h1 env.SPXHANDLE_INVALID env.SPXHANDLE_INVALID
                env.SPXHANDLE_INVALID .CreateIntentRecognizerFromConfig >>= fun r =>
              TrackHandle env .recognizer r >>= fun h => store p h) s := by
        simp only [CreationCall.run, recognizer_create_intent_recognizer_from_config, hv]
        rfl
      rw [hrun, base_only_cascade_calls env p _ h1 _ s b hb]
      constructor
      · intro c hc
        split_ifs at hc <;> simp_all [CreationCall.isDialog]
      · intro _ _ hcc
        simp only [CreationCall.factoryClass] at hcc
        simp [hcc]
  | speech_recognizer_from_auto_detect q h1 d a =>
    have hd : d = env.SPXHANDLE_INVALID := haux d (by simp [CreationCall.auxiliary])
    subst hd
    have hrun : (CreationCall.speech_recognizer_from_auto_detect q h1 env.SPXHANDLE_INVALID
        a).run env s = (.returned SPXERR_INVALID_ARG, s) := by
      cases q <;>
        simp [CreationCall.run,
          recognizer_create_speech_recognizer_from_auto_detect_source_lang_config,
          auto_detect_source_lang_config_is_handle_valid, hinv]
    rw [hrun]
    simp [CreationCall.argumentsPass, auto_detect_source_lang_config_is_handle_valid, hinv]
  | speech_recognizer_from_source_lang q h1 l a =>
    have hl : l = env.SPXHANDLE_INVALID := haux l (by simp [CreationCall.auxiliary])
    subst hl
    have hrun : (CreationCall.speech_recognizer_from_source_lang q h1 env.SPXHANDLE_INVALID
        a).run env s = (.returned SPXERR_INVALID_ARG, s) := by
      cases q <;>
        simp [CreationCall.run, recognizer_create_speech_recognizer_from_source_lang_config,
          source_lang_config_is_handle_valid, hinv]
    rw [hrun]
    simp [CreationCall.argumentsPass, source_lang_config_is_handle_valid, hinv]
  | dialog_service_connector q h1 a =>
    simp only [CreationCall.base, Option.some.injEq] at hbase
    subst hbase
    have ha : a = env.SPXHANDLE_INVALID := haux a (by simp [CreationCall.auxiliary])
    subst ha
    cases q with
    | none => simp [CreationCall.run,
        dialog_service_connector_create_dialog_service_connector_from_config, CreationCall.out]
    | some p =>
      cases hobj : objectOf env s .speechConfig h1 with
      | none => simp [sourceBag, hobj] at hb
      | some c =>
        have hbag : (s.heap c).namedProperties = some b := by
          simpa [sourceBag, hobj] using hb
        have hsb := sourceBag_dialogPrepared env s p h1 c b hobj
        have hcalls := dialog_factoryCalls env p h1 env.SPXHANDLE_INVALID s c b hobj hbag
        rw [cascade_factoryCalls,
          mergedBag_base_only env _ h1 (withKeywordVerification env b) hsb] at hcalls
        simp only [CreationCall.run]
        rw [hcalls]
        simp only [objectOf_dialogPrepared, hobj, cascadeConflict, sourceBag_invalid,
          Option.isSome_none, Bool.false_and, Option.isSome_some, and_self, and_true]
        constructor
        · intro c hc
          split_ifs at hc <;> simp_all [CreationCall.isDialog]
        · intro _ _ hcc
          simp only [CreationCall.factoryClass] at hcc
          simp [hcc]
  | translation_recognizer q h1 a =>
    simp only [CreationCall.base, Option.some.injEq] at hbase
    subst hbase
    have ha : a = env.SPXHANDLE_INVALID := haux a (by simp [CreationCall.auxiliary])
    subst ha
    cases q with
    | none => simp [CreationCall.run, recognizer_create_translation_recognizer_from_config,
        CreationCall.out]
    | some p =>
      simp only [CreationCall.run]
      rw [translation_factoryCalls env p h1 _ s b hb]
      simp only [sourceBag_invalid, mergeOpt]
      constructor
      · intro c hc
        split_ifs at hc <;> simp_all [CreationCall.isDialog]
      · intro _ _ hcc
        simp only [CreationCall.factoryClass] at hcc
        simp [hcc]
  | speech_synthesizer q h1 a =>
    simp only [CreationCall.base, Option.some.injEq] at hbase
    subst hbase
    cases q with
    | none => simp [CreationCall.run, synthesizer_create_speech_synthesizer_from_config,
        CreationCall.out]
    | some p =>
      simp only [CreationCall.run]
      rw [synthesizer_factoryCalls env p h1 _ s b hb]
      constructor
      · intro c hc
        split_ifs at hc <;> simp_all [CreationCall.isDialog]
      · intro _ _ hcc
        simp only [CreationCall.factoryClass] at hcc
        simp [hcc]
  | conversation q h1 id =>
    simp only [CreationCall.base, Option.some.injEq] at hbase
    subst hbase
    cases q with
    | none => simp [CreationCall.run, conversation_create_from_config, CreationCall.out]
    | some p =>
      cases id with
      | none =>
        simp [CreationCall.run, conversation_create_from_config, CreationCall.argumentsPass]
      | some id =>
        simp only [CreationCall.run]
        rw [conversation_factoryCalls env p h1 id s b hb]
        constructor
        · intro c hc
          split_ifs at hc <;> simp_all [CreationCall.isDialog]
        · intro _ _ hcc
          simp only [CreationCall.factoryClass] at hcc
          simp [hcc]
  | conversation_transcriber q a =>
    simp [CreationCall.base] at hbase

/-- C4 (amended) at the speech recognizer operation. -/
theorem C4_base_only_witness :
    (factoryCalls (newEvents st1
      ((CreationCall.speech_recognizer (some 5) 10 env0.SPXHANDLE_INVALID).run env0 st1).2)).length
      = 1 ∧
    ∀ c ∈ factoryCalls (newEvents st1
      ((CreationCall.speech_recognizer (some 5) 10 env0.SPXHANDLE_INVALID).run env0 st1).2),
      c.2.1 = Bag.single "a" "1" :=
  ⟨(C4_base_only env0 (.speech_recognizer (some 5) 10 env0.SPXHANDLE_INVALID) st1 10
      (Bag.single "a" "1") rfl (by decide) rfl).2 rfl (by decide) rfl,
   (C4_base_only env0 (.speech_recognizer (some 5) 10 env0.SPXHANDLE_INVALID) st1 10
      (Bag.single "a" "1") rfl (by decide) rfl).1⟩
/-! ## C5: the null output pointer -/

/-- C5: a creation operation called with a null output pointer returns
SPXERR_INVALID_ARG, whatever the other arguments, and leaves the whole state as
it was: no handle table, object, property bag or memory cell changes and no
collaborator call (lookup, construction, copy, tracking) is made. -/
theorem C5_null_output_pointer (env : Env) (call : CreationCall) (s : State)
    (h : call.out = none) : call.run env s = (.returned SPXERR_INVALID_ARG, s) := by
  cases call <;> simp only [CreationCall.out] at h <;> subst h <;> rfl

/-- C5 at a call whose other arguments are all valid. -/
theorem C5_null_output_pointer_witness :
    (CreationCall.speech_recognizer none 10 0).out = none ∧
    (CreationCall.speech_recognizer none 10 0).run env0 st1
      = (.returned SPXERR_INVALID_ARG, st1) :=
  ⟨rfl, C5_null_output_pointer env0 (.speech_recognizer none 10 0) st1 rfl⟩


/-! ## C6: an audio handle that is not valid -/

/-- C6: for a valid speech-config handle and an audio-config handle that is not
valid in the audio-config table, recognizer_create_speech_recognizer_from_config
does exactly what it does for the invalid sentinel: the outcome and the state
after the call are the same, no handle is looked up in the audio-config table,
every invocation of the factory method receives no audio configuration, and the
call succeeds whenever the factory can be created and the factory method
constructs the recognizer from the base config's bag. -/
theorem C6_invalid_audio_handle (env : Env) (p : Option Loc) (hs hau : SPXHANDLE) (s : State)
    (hvalid : speech_config_is_handle_valid env s hs = true)
    (hinv : audio_config_is_handle_valid env s hau = false) :
    recognizer_create_speech_recognizer_from_config env p hs hau s
      = recognizer_create_speech_recognizer_from_config env p hs env.SPXHANDLE_INVALID s ∧
    (newEvents s (recognizer_create_speech_recognizer_from_config env p hs hau s).2).filter
      (Event.isResolveIn .audioConfig) = [] ∧
    (∀ c ∈ factoryCalls (newEvents s
        (recognizer_create_speech_recognizer_from_config env p hs hau s).2),
      c.2.2 = none ∧
      c.2.1 = mergedBag env s hs env.SPXHANDLE_INVALID env.SPXHANDLE_INVALID
        env.SPXHANDLE_INVALID) ∧
    (∀ obj, p.isSome = true → env.canCreate "CSpxSpeechApiFactory" = true →
      env.construct .CreateSpeechRecognizerFromConfig
        (mergedBag env s hs env.SPXHANDLE_INVALID env.SPXHANDLE_INVALID env.SPXHANDLE_INVALID)
        none = .ok obj →
      (recognizer_create_speech_recognizer_from_config env p hs hau s).1
        = .returned .SPX_NOERROR) := by
  have hnone : objectOf env s .audioConfig hau = none := by
    simpa [audio_config_is_handle_valid, is_handle_valid, objectOf] using hinv
  have hbase := objectOf_isSome_of_valid env s _ hs hvalid
  have hcas := cascade_invalid_audio env hs env.SPXHANDLE_INVALID env.SPXHANDLE_INVALID hau
    .CreateSpeechRecognizerFromConfig s hnone
  cases p with
  | none =>
    refine ⟨rfl, ?_, ?_, ?_⟩
    · simp [recognizer_create_speech_recognizer_from_config]
    · simp [recognizer_create_speech_recognizer_from_config]
    · simp
  | some q =>
    have hrun : ∀ a, recognizer_create_speech_recognizer_from_config env (some q) hs a s
        = SPXAPI_TRY (store q env.SPXHANDLE_INVALID >>= fun _ =>
            create_from_config env hs env.SPXHANDLE_INVALID env.SPXHANDLE_INVALID a
              .CreateSpeechRecognizerFromConfig >>= fun r =>
            TrackHandle env .recognizer r >>= fun h => store q h) s := by
      intro a
      simp only [recognizer_create_speech_recognizer_from_config, hvalid]
      rfl
    refine ⟨?_, ?_, ?_, ?_⟩
    · rw [hrun, hrun, try_cascade_apply, try_cascade_apply, hcas]
    · rw [hrun, try_cascade_newEvents, List.filter_append,
        cascade_no_audio_resolve env _ _ _ hau _ s hnone]
      split <;> simp [Event.isResolveIn]
    · intro c hc
      rw [hrun, try_cascade_factoryCalls, hcas, cascade_factoryCalls] at hc
      split_ifs at hc
      · simp only [List.mem_singleton] at hc
        subst hc
        exact ⟨objectOf_invalid env s _, rfl⟩
      · simp at hc
    · intro obj _ hc hobj
      have hok := cascade_ok env hs env.SPXHANDLE_INVALID env.SPXHANDLE_INVALID
        env.SPXHANDLE_INVALID .CreateSpeechRecognizerFromConfig s obj hc hbase
        (by simp [cascadeConflict, sourceBag_invalid])
        (by simpa [objectOf_invalid] using hobj)
      rw [hrun, try_cascade_apply, hcas, hok]

/-- C6 at an audio handle that was never tracked. -/
theorem C6_invalid_audio_handle_witness :
    recognizer_create_speech_recognizer_from_config env0 (some 5) 10 99 st1
      = recognizer_create_speech_recognizer_from_config env0 (some 5) 10
          env0.SPXHANDLE_INVALID st1 ∧
    (recognizer_create_speech_recognizer_from_config env0 (some 5) 10 99 st1).1
      = .returned .SPX_NOERROR :=
  ⟨(C6_invalid_audio_handle env0 (some 5) 10 99 st1 (by decide) (by decide)).1,
   (C6_invalid_audio_handle env0 (some 5) 10 99 st1 (by decide) (by decide)).2.2.2
      _ rfl rfl rfl⟩

/-! ## C7: an input object without a property bag -/

/-- C7, the code at the failing input: a valid speech-config handle whose object
exposes no property bag.  The operations built on create_from_config skip the
copy and succeed; recognizer_create_translation_recognizer_from_config and
synthesizer_create_speech_synthesizer_from_config hand the null bag pointer to
Copy (here Copy rejects it and the call fails), and
dialog_service_connector_create_dialog_service_connector_from_config
dereferences it. -/
theorem C7_missing_bag_at_failing_input :
    speech_config_is_handle_valid env0 stBare 10 = true ∧
    sourceBag env0 stBare .speechConfig 10 = none ∧
    (recognizer_create_speech_recognizer_from_config env0 (some 5) 10
        env0.SPXHANDLE_INVALID stBare).1 = .returned .SPX_NOERROR ∧
    (newEvents stBare (recognizer_create_speech_recognizer_from_config env0 (some 5) 10
        env0.SPXHANDLE_INVALID stBare).2).any Event.isCopy = false ∧
    (newEvents stBare (recognizer_create_translation_recognizer_from_config env0 (some 5) 10
        env0.SPXHANDLE_INVALID stBare).2).any Event.isNullCopy = true ∧
    (recognizer_create_translation_recognizer_from_config env0 (some 5) 10
        env0.SPXHANDLE_INVALID stBare).1 = .returned SPXERR_INVALID_ARG ∧
    (newEvents stBare (synthesizer_create_speech_synthesizer_from_config env0 (some 5) 10
        env0.SPXHANDLE_INVALID stBare).2).any Event.isNullCopy = true ∧
    (synthesizer_create_speech_synthesizer_from_config env0 (some 5) 10
        env0.SPXHANDLE_INVALID stBare).1 = .returned SPXERR_INVALID_ARG ∧
    (dialog_service_connector_create_dialog_service_connector_from_config env0 (some 5) 10
        env0.SPXHANDLE_INVALID stBare).1 = .undefined_behaviour := by
  refine ⟨by decide, rfl, by decide, by decide, by decide, by decide, by decide, by decide,
    by decide⟩

/-! ## C8: the validation of the input handles -/

/-- C8 as stated fails: recognizer_join_conversation called with a valid
conversation handle and a non-null transcriber handle that was never tracked
has resolved the conversation handle by the time it fails. -/
theorem C8_counterexample :
    is_handle_valid env0 st8 .conversation 40 = true ∧
    (77 : SPXHANDLE) ≠ nullptr ∧
    is_handle_valid env0 st8 .recognizer 77 = false ∧
    (newEvents st8 (recognizer_join_conversation env0 40 77 st8).2).any Event.isResolved
      = true := by
  decide

/-- C8 (amended): a creation operation called with a required input handle that
is not valid in the table of its role returns SPXERR_INVALID_ARG and does
nothing (no lookup, no change).  recognizer_join_conversation and
recognizer_leave_conversation do so for a null handle only; for a non-null
handle that its table does not hold they fail with the status the lookup of the
handle table throws, having changed no object, table or memory cell: join after
the failed lookup of the conversation handle, or after the successful lookup of
the conversation handle and the failed lookup of the transcriber handle; leave
after the failed lookup of the transcriber handle. -/
theorem C8_handle_validation (env : Env) (s : State) :
    (∀ call : CreationCall, call.requiredHandlesValid env s = false →
      call.run env s = (.returned SPXERR_INVALID_ARG, s)) ∧
    (∀ hconv hreco, hconv = nullptr ∨ hreco = nullptr →
      recognizer_join_conversation env hconv hreco s = (.returned SPXERR_INVALID_ARG, s)) ∧
    (recognizer_leave_conversation env nullptr s = (.returned SPXERR_INVALID_ARG, s)) ∧
    (∀ hconv hreco, hconv ≠ nullptr → hreco ≠ nullptr →
      is_handle_valid env s .conversation hconv = false →
      recognizer_join_conversation env hconv hreco s
        = (.returned (.failed env.lookupFailure),
            s.log [.resolve .conversation hconv none])) ∧
    (∀ hconv hreco c, hreco ≠ nullptr →
      objectOf env s .conversation hconv = some c →
      is_handle_valid env s .recognizer hreco = false →
      recognizer_join_conversation env hconv hreco s
        = (.returned (.failed env.lookupFailure),
            s.log [.resolve .conversation hconv (some c), .resolve .recognizer hreco none])) ∧
    (∀ hreco, hreco ≠ nullptr → is_handle_valid env s .recognizer hreco = false →
      recognizer_leave_conversation env hreco s
        = (.returned (.failed env.lookupFailure),
            s.log [.resolve .recognizer hreco none])) := by
  refine ⟨?_, ?_, ?_, ?_, ?_, ?_⟩
  · intro call hcall
    cases call with
    | speech_recognizer q h a =>
      simp only [CreationCall.requiredHandlesValid] at hcall
      cases q <;> simp [CreationCall.run, recognizer_create_speech_recognizer_from_config, hcall]
    | speech_recognizer_from_auto_detect q h d a =>
      simp only [CreationCall.requiredHandlesValid, Bool.and_eq_false_iff] at hcall
      cases q <;> rcases hcall with hcall | hcall <;>
        simp [CreationCall.run,
          recognizer_create_speech_recognizer_from_auto_detect_source_lang_config, hcall]
    | speech_recognizer_from_source_lang q h l a =>
      simp only [CreationCall.requiredHandlesValid, Bool.and_eq_false_iff] at hcall
      cases q <;> rcases hcall with hcall | hcall <;>
        simp [CreationCall.run, recognizer_create_speech_recognizer_from_source_lang_config,
          hcall]
    | dialog_service_connector q h a =>
      simp only [CreationCall.requiredHandlesValid] at hcall
      cases q <;> simp [CreationCall.run,
        dialog_service_connector_create_dialog_service_connector_from_config, hcall]
    | translation_recognizer q h a =>
      simp only [CreationCall.requiredHandlesValid] at hcall
      cases q <;> simp [CreationCall.run, recognizer_create_translation_recognizer_from_config,
        hcall]
    | intent_recognizer q h a =>
      simp only [CreationCall.requiredHandlesValid] at hcall
      cases q <;> simp [CreationCall.run, recognizer_create_intent_recognizer_from_config, hcall]
    | speech_synthesizer q h a =>
      simp only [CreationCall.requiredHandlesValid] at hcall
      cases q <;> simp [CreationCall.run, synthesizer_create_speech_synthesizer_from_config,
        hcall]
    | conversation q h id =>
      simp only [CreationCall.requiredHandlesValid] at hcall
      cases q <;> simp [CreationCall.run, conversation_create_from_config, hcall]
    | conversation_transcriber q a =>
      simp [CreationCall.requiredHandlesValid] at hcall
  · intro hconv hreco h
    unfold recognizer_join_conversation
    rcases h with h | h
    · subst h
      split <;> simp
    · subst h
      simp
  · simp [recognizer_leave_conversation]
  · intro hconv hreco hc hr hinv
    have hnone : objectOf env s .conversation hconv = none := by
      simpa [is_handle_valid, objectOf] using hinv
    simp [recognizer_join_conversation, hc, hr, SPXAPI_TRY, resolve_apply, hnone]
  · intro hconv hreco c hr hobj hinv
    have hnone : objectOf env s .recognizer hreco = none := by
      simpa [is_handle_valid, objectOf] using hinv
    have hc : hconv ≠ nullptr := by
      intro h
      subst h
      simp [objectOf, Table.find] at hobj
    simp [recognizer_join_conversation, hc, hr, SPXAPI_TRY, resolve_apply, hnone, hobj]
  · intro hreco hr hinv
    have hnone : objectOf env s .recognizer hreco = none := by
      simpa [is_handle_valid, objectOf] using hinv
    simp [recognizer_leave_conversation, hr, SPXAPI_TRY, resolve_apply, hnone]

/-- C8 (amended) at a valid conversation handle and a transcriber handle that
is tracked under another role only. -/
theorem C8_handle_validation_witness :
    recognizer_join_conversation env0 40 60 st8
      = (.returned (.failed env0.lookupFailure),
          st8.log [.resolve .conversation 40 (some 0), .resolve .recognizer 60 none]) :=
  (C8_handle_validation env0 st8).2.2.2.2.1 40 60 0 (by decide) rfl (by decide)

/-! ## C9: join and leave -/

/-- C10 as stated fails: synthesizer_create_speech_synthesizer_from_config
called with a valid speech config whose bag maps k to base and a valid audio
config whose bag maps k to audio constructs the synthesizer from a factory bag
in which k still has the value of the base config. -/
theorem C10_counterexample :
    (sourceBag env0 st2 .audioConfig 20).map (fun b => b "k") = some (some "audio") ∧
    (factoryCalls (newEvents st2
      (synthesizer_create_speech_synthesizer_from_config env0 (some 5) 10 20 st2).2)).map
        (fun c => c.2.1 "k") = [some "base"] := by
  decide

/-- C10 (amended): synthesizer_create_speech_synthesizer_from_config does not
merge the bag of the audio config: for every valid speech-config handle whose
object carries a bag and every audio handle, the bag the factory holds when the
synthesizer is constructed is exactly the base config's bag, the factory method
is handed the resolved audio configuration (none when the handle is not valid),
and the method is invoked once whenever the synthesis factory can be created. -/
theorem C10_synthesizer_base_bag_only (env : Env) (p : Loc) (hs hau : SPXHANDLE) (s : State)
    (b : Bag) (hb : sourceBag env s .speechConfig hs = some b) :
    (∀ c ∈ factoryCalls (newEvents s
        (synthesizer_create_speech_synthesizer_from_config env (some p) hs hau s).2),
      c.2.1 = b ∧ c.2.2 = objectOf env s .audioConfig hau) ∧
    (env.canCreate "CSpxSpeechSynthesisApiFactory" = true →
      factoryCalls (newEvents s
        (synthesizer_create_speech_synthesizer_from_config env (some p) hs hau s).2)
        = [(.CreateSpeechSynthesizerFromConfig, b, objectOf env s .audioConfig hau)]) := by
  rw [synthesizer_factoryCalls env p hs hau s b hb]
  constructor
  · intro c hc
    split_ifs at hc
    · simp only [List.mem_singleton] at hc
      subst hc
      exact ⟨rfl, rfl⟩
    · simp at hc
  · intro hc
    simp [hc]

/-- C10 (amended) at a base config and an audio config that both carry a bag. -/
theorem C10_synthesizer_base_bag_only_witness :
    factoryCalls (newEvents st2
        (synthesizer_create_speech_synthesizer_from_config env0 (some 5) 10 20 st2).2)
      = [(.CreateSpeechSynthesizerFromConfig,
          (Bag.single "k" "base").SetStringValue "other" "o",
          objectOf env0 st2 .audioConfig 20)] :=
  (C10_synthesizer_base_bag_only env0 5 10 20 st2
    ((Bag.single "k" "base").SetStringValue "other" "o") rfl).2 rfl

/-! ## C11: the dialog service connector writes to its config -/

/-- The bag of the audio config as the cascade of the dialog service connector
operation reads it, at the keyword verification key: the value in the bag the
audio config had before the call, or else the defaulted value when the audio
config is the speech config itself. -/
theorem audioBag_dialogPrepared (env : Env) (s : State) (p : Loc) (hs hau : SPXHANDLE)
    (c : ObjId) (b : Bag) (hbag : (s.heap c).namedProperties = some b) :
    (match (sourceBag env (dialogPrepared env s p hs c b) .audioConfig hau).bind
        (fun a => a env.keywordVerificationName) with
      | some x => some x
      | none => withKeywordVerification env b env.keywordVerificationName)
    = (match (sourceBag env s .audioConfig hau).bind
        (fun a => a env.keywordVerificationName) with
      | some x => some x
      | none => withKeywordVerification env b env.keywordVerificationName) := by
  unfold sourceBag
  rw [objectOf_dialogPrepared]
  cases objectOf env s .audioConfig hau with
  | none => rfl
  | some i =>
    by_cases hic : i = c
    · subst hic
      simp only [Option.some_bind, dialogPrepared, State.withBag, State.log_heap,
        State.setMem_heap, Function.update_same, hbag]
      cases hk : b env.keywordVerificationName <;>
        simp [withKeywordVerification, Bag.SetStringValue, Bag.GetStringValue, hk]
    · simp [dialogPrepared, State.withBag, Function.update_noteq hic]

/-- C11: dialog_service_connector_create_dialog_service_connector_from_config,
called with a non-null output pointer and a valid speech-config handle whose
object is on the heap and carries a bag, writes to that bag before the cascade:
after the call, whatever its outcome, the bag of the config defines
KeywordConfig_EnableKeywordVerification, with its previous value if the key was
defined and with true otherwise; every other key of the bag has the value it had
before; and every bag the factory method is invoked on gives the key that same
value, unless the bag of the audio config defines the key, whose value it then
has.  The method is invoked once whenever the factory can be created. -/
theorem C11_dialog_writes_config (env : Env) (p : Loc) (hs hau : SPXHANDLE) (s : State)
    (c : ObjId) (b : Bag)
    (hobj : objectOf env s .speechConfig hs = some c)
    (hbag : (s.heap c).namedProperties = some b)
    (hlive : c < s.nextObj) :
    ∃ b1 : Bag,
      ((dialog_service_connector_create_dialog_service_connector_from_config env (some p)
          hs hau s).2.heap c).namedProperties = some b1 ∧
      b1 env.keywordVerificationName
        = some (match b env.keywordVerificationName with
            | some v => v
            | none => "true") ∧
      (∀ k, k ≠ env.keywordVerificationName → b1 k = b k) ∧
      (∀ call ∈ factoryCalls (newEvents s
          (dialog_service_connector_create_dialog_service_connector_from_config env (some p)
            hs hau s).2),
        call.2.1 env.keywordVerificationName
          = match (sourceBag env s .audioConfig hau).bind
                (fun a => a env.keywordVerificationName) with
            | some x => some x
            | none => b1 env.keywordVerificationName) ∧
      (env.canCreate "CSpxSpeechApiFactory" = true →
        (factoryCalls (newEvents s
          (dialog_service_connector_create_dialog_service_connector_from_config env (some p)
            hs hau s).2)).length = 1) := by
  have hne : c ≠ (dialogPrepared env s p hs c b).nextObj := Nat.ne_of_lt hlive
  have hsb := sourceBag_dialogPrepared env s p hs c b hobj
  have hcalls := dialog_factoryCalls env p hs hau s c b hobj hbag
  rw [cascade_factoryCalls] at hcalls
  simp only [objectOf_dialogPrepared, hobj, cascadeConflict, sourceBag_invalid,
    Option.isSome_none, Bool.false_and, Option.isSome_some, and_self, and_true] at hcalls
  refine ⟨withKeywordVerification env b, ?_, ?_, ?_, ?_, ?_⟩
  · rw [dialog_heap env p hs hau s c b hobj hbag, cascade_heap _ _ _ _ _ _ _ c hne]
    simp [dialogPrepared, State.withBag]
  · cases hk : b env.keywordVerificationName <;>
      simp [withKeywordVerification, Bag.SetStringValue, Bag.GetStringValue, hk]
  · intro k hk
    simp [withKeywordVerification, Bag.SetStringValue, hk]
  · intro call hcall
    rw [hcalls] at hcall
    split_ifs at hcall
    · simp only [List.mem_singleton] at hcall
      subst hcall
      rw [← audioBag_dialogPrepared env s p hs hau c b hbag]
      simp only [mergedBag, hsb, sourceBag_invalid, mergeOpt, Bag.empty_Copy]
      cases hab : sourceBag env (dialogPrepared env s p hs c b) .audioConfig hau with
      | none => rfl
      | some a =>
        simp only [Option.some_bind, Bag.Copy]
    · simp at hcall
  · intro hc
    rw [hcalls]
    simp [hc]

/-- C11 at a config whose bag does not define the key and an audio config
whose bag does not define it either. -/
theorem C11_dialog_writes_config_witness :
    ∃ b1 : Bag,
      ((dialog_service_connector_create_dialog_service_connector_from_config env0 (some 5)
          10 20 st2).2.heap 0).namedProperties = some b1 ∧
      b1 env0.keywordVerificationName = some "true" ∧
      (∀ call ∈ factoryCalls (newEvents st2
          (dialog_service_connector_create_dialog_service_connector_from_config env0 (some 5)
            10 20 st2).2),
        call.2.1 env0.keywordVerificationName = some "true") ∧
      (factoryCalls (newEvents st2
          (dialog_service_connector_create_dialog_service_connector_from_config env0 (some 5)
            10 20 st2).2)).length = 1 := by
  obtain ⟨b1, h1, h2, _, h4, h5⟩ := C11_dialog_writes_config env0 5 10 20 st2 0
    ((Bag.single "k" "base").SetStringValue "other" "o") rfl rfl (by decide)
  have h2a : b1 env0.keywordVerificationName = some "true" := h2
  refine ⟨b1, h1, h2a, ?_, h5 rfl⟩
  intro call hcall
  rw [h4 call hcall, h2a]
  rfl
end SpeechFactory
